import Mathlib

/-!
# DHCPv6 network-boot packets (`dhcp6/packet.go`)

A shallow embedding of the packet codec (`MakePacket`, `Packet.Marshal`), the
response builder (`Packet.BuildResponse`, `MakeMsg*`) and the admission filter
(`Packet.ShouldDiscard`, `ShouldDiscard*`) of `dhcp6/packet.go`.

Conventions of the embedding:

* a byte is a `Nat` (a real byte is below 256), a byte slice is a `List Nat`
  whose capacity equals its length;
* a Go function body that can hit a run-time panic returns `Run α`: either
  `Run.ret a` (normal return of `a`) or `Run.panic f` (the goroutine panics);
* a Go `(T, error)` result is an `Except String T`, a Go `error` result is an
  `Option DiscardError` (`none` is `nil`);
* `dhcp6/options.go` is not part of the sources at hand: the option registry,
  the `Option`/`Options` types and their helpers are modelled from the
  specification, and the option-block parser and serializer are parameters of
  `MakePacket` and `Packet.Marshal`.
-/

set_option autoImplicit false

namespace Dhcp6

/-! ## Run-time outcomes -/

/-- Run-time faults of the Go runtime that the embedded code can reach. -/
inductive Fault where
  | sliceBounds (lo hi : Nat)
  | indexRange (i len : Nat)
  | nilDeref
deriving DecidableEq, Repr

deriving instance DecidableEq for Except

/-- Outcome of running a Go function body. -/
inductive Run (α : Type) where
  | ret (a : α)
  | panic (f : Fault)
deriving DecidableEq, Repr

/-- Sequencing of Go statements: a panic aborts everything after it. -/
def Run.bind {α β : Type} (x : Run α) (k : α → Run β) : Run β :=
  match x with
  | .ret a => k a
  | .panic f => .panic f

instance : Monad Run where
  pure := Run.ret
  bind := Run.bind

/-- Go slice expression `s[lo:]`: panics unless `lo <= len(s)`. -/
def sliceFrom (s : List Nat) (lo : Nat) : Run (List Nat) :=
  if lo ≤ s.length then .ret (s.drop lo) else .panic (.sliceBounds lo s.length)

/-- Go slice expression `s[lo:hi]` on a slice whose capacity is its length:
panics unless `lo <= hi <= len(s)`. -/
def slice (s : List Nat) (lo hi : Nat) : Run (List Nat) :=
  if hi ≤ s.length then
    if lo ≤ hi then .ret ((s.take hi).drop lo) else .panic (.sliceBounds lo hi)
  else .panic (.sliceBounds hi s.length)

/-- Go index expression `s[i]`: panics unless `i < len(s)`. -/
def index (s : List Nat) (i : Nat) : Run Nat :=
  match s.get? i with
  | some b => .ret b
  | none => .panic (.indexRange i s.length)

/-- Go assignment `s[i] = b`: panics unless `i < len(s)`. -/
def setIndex (s : List Nat) (i : Nat) (b : Nat) : Run (List Nat) :=
  if i < s.length then .ret (s.set i b) else .panic (.indexRange i s.length)

/-- Go builtin `copy(dst, src)`: the contents of `dst` afterwards; it copies
`min(len(dst), len(src))` elements. -/
def copy (dst src : List Nat) : List Nat :=
  src.take dst.length ++ dst.drop src.length

/-- Go statement `copy(s[off:], src)`: the contents of `s` afterwards. -/
def copyAt (s : List Nat) (off : Nat) (src : List Nat) : Run (List Nat) :=
  match sliceFrom s off with
  | .ret tail => .ret (s.take off ++ copy tail src)
  | .panic f => .panic f

/-- Go `binary.BigEndian.Uint16(b)`: panics when `len(b) < 2`. -/
def bigEndianUint16 (b : List Nat) : Run Nat :=
  match b with
  | b0 :: b1 :: _ => .ret (b0 % 256 * 256 + b1 % 256)
  | _ => .panic (.indexRange 1 b.length)

/-- Go `bytes.Compare(a, b)`: lexicographic comparison, `0` exactly for equal
contents, `-1` when `a` sorts first, `1` otherwise. -/
def bytesCompare : List Nat → List Nat → Int
  | [], [] => 0
  | [], _ :: _ => -1
  | _ :: _, [] => 1
  | a :: as, b :: bs =>
    if a < b then -1 else if b < a then 1 else bytesCompare as bs

/-! ## Data model -/

/-- The message type is a raw byte (`type MessageType uint8`). -/
abbrev MessageType := Nat

def MsgSolicit : MessageType := 1
def MsgAdvertise : MessageType := 2
def MsgRequest : MessageType := 3
def MsgConfirm : MessageType := 4
def MsgRenew : MessageType := 5
def MsgRebind : MessageType := 6
def MsgReply : MessageType := 7
def MsgRelease : MessageType := 8
def MsgDecline : MessageType := 9
def MsgReconfigure : MessageType := 10
def MsgInformationRequest : MessageType := 11
def MsgRelayForw : MessageType := 12
def MsgRelayRepl : MessageType := 13

/-- Modelled from the spec: the option-code registry of `options.go` (not among
the sources); the values are the registered DHCPv6 option codes. -/
def OptClientId : Nat := 1
/-- Modelled from the spec: Server Identifier option code (`options.go`). -/
def OptServerId : Nat := 2
/-- Modelled from the spec: IA_NA option code (`options.go`). -/
def OptIaNa : Nat := 3
/-- Modelled from the spec: IA_Temporary-Address option code (`options.go`). -/
def OptIaTa : Nat := 4
/-- Modelled from the spec: IA_Address option code (`options.go`). -/
def OptIaAddr : Nat := 5
/-- Modelled from the spec: Option Request option code (`options.go`). -/
def OptOro : Nat := 6
/-- Modelled from the spec: Status Code option code (`options.go`). -/
def OptStatusCode : Nat := 13
/-- Modelled from the spec: Vendor Class option code (`options.go`). -/
def OptVendorClass : Nat := 16
/-- Modelled from the spec: Boot File URL option code (`options.go`). -/
def OptBootfileUrl : Nat := 59
/-- Modelled from the spec: Client Architecture Type option code (`options.go`). -/
def OptClientArchType : Nat := 61

/-- Modelled from the spec: the `Option` struct of `options.go` (named
`DhcpOption` here, `Option` being taken): an identifier, a declared length and
a byte-sequence value. -/
structure DhcpOption where
  Id : Nat
  Length : Nat
  Value : List Nat
deriving DecidableEq, Repr

/-- Modelled from the spec: the `Options` type of `options.go`, a mapping from
option identifier to option, kept as an association list that `AddOption`
maintains with one entry per identifier. -/
abbrev Options := List (Nat × DhcpOption)

/-- Map read `o[k]`: the stored option, or `none` for Go's `nil` pointer. -/
def Options.find (o : Options) (k : Nat) : Option DhcpOption :=
  o.lookup k

/-- Go expression `o[k].Value` and the like: the stored option, a nil-pointer
dereference when the key is absent. -/
def Options.deref (o : Options) (k : Nat) : Run DhcpOption :=
  match o.find k with
  | some opt => .ret opt
  | none => .panic .nilDeref

/-- Modelled from the spec: `Options.AddOption` of `options.go`; identifiers
are unique per packet and the last write wins. -/
def Options.AddOption (o : Options) (opt : DhcpOption) : Options :=
  o.filter (fun e => e.1 != opt.Id) ++ [(opt.Id, opt)]

/-- Modelled from the spec: `Options.Has(code)`, the presence check. -/
def Options.Has (o : Options) (k : Nat) : Bool :=
  (o.find k).isSome

/-- Modelled from the spec: typed presence check for Client Identifier. -/
def Options.HasClientId (o : Options) : Bool := o.Has OptClientId
/-- Modelled from the spec: typed presence check for Server Identifier. -/
def Options.HasServerId (o : Options) : Bool := o.Has OptServerId
/-- Modelled from the spec: typed presence check for IA_NA. -/
def Options.HasIaNa (o : Options) : Bool := o.Has OptIaNa
/-- Modelled from the spec: typed presence check for IA_Temporary-Address. -/
def Options.HasIaTa (o : Options) : Bool := o.Has OptIaTa

/-- The 16-bit big-endian codes listed in an option-request value. -/
def requestedCodes : List Nat → List Nat
  | b0 :: b1 :: rest => (b0 * 256 + b1) :: requestedCodes rest
  | _ => []

/-- Modelled from the spec: `Options.RequestedBootFileUrlOption` of
`options.go`, the option-request list check: an Option Request option is
present and lists the Boot File URL code. -/
def Options.RequestedBootFileUrlOption (o : Options) : Bool :=
  match o.find OptOro with
  | some oro => decide (OptBootfileUrl ∈ requestedCodes oro.Value)
  | none => false

/-- The packet of `packet.go`; the field `Type` is spelled `Typ`. -/
structure Packet where
  Typ : MessageType
  TransactionID : Nat × Nat × Nat
  Options : Options
deriving DecidableEq, Repr

/-- The three bytes of a transaction id, `p.TransactionID[:]`. -/
def tidBytes (t : Nat × Nat × Nat) : List Nat := [t.1, t.2.1, t.2.2]

/-- The array a 3-byte `copy` target holds afterwards, read back as a triple. -/
def tidOfBytes (bs : List Nat) : Nat × Nat × Nat :=
  (bs.getD 0 0, bs.getD 1 0, bs.getD 2 0)

/-! ## Packet codec -/

/-- Go function `MakePacket` of `packet.go`; `MakeOptions` is the option-block parser. -/
def MakePacket (MakeOptions : List Nat → Except String Options) (bs : List Nat) :
    Run (Except String Packet) := do
  let optionBytes ← sliceFrom bs 4
  match MakeOptions optionBytes with
  | .error err => pure (.error ("packet has malformed options section: " ++ err))
  | .ok options =>
    let typ ← index bs 0
    let tid ← slice bs 1 4
    pure (.ok { Typ := typ, TransactionID := tidOfBytes (copy [0, 0, 0] tid), Options := options })

/-- Go function `Packet.Marshal` of `packet.go`; `marshalOptions` is `Options.Marshal`. -/
def Packet.Marshal (marshalOptions : Dhcp6.Options → Except String (List Nat)) (p : Packet) :
    Run (Except String (List Nat)) :=
  match marshalOptions p.Options with
  | .error err => pure (.error ("packet has malformed options section: " ++ err))
  | .ok marshalled_options => do
    let ret := List.replicate (marshalled_options.length + 4) 0
    let ret ← setIndex ret 0 MsgAdvertise
    let ret ← copyAt ret 1 (tidBytes p.TransactionID)
    let ret ← copyAt ret 4 marshalled_options
    pure (.ok ret)

/-! ## Response builder -/

/-- The bytes of a Go string literal, `[]byte("...")`. -/
def bytesOfString (s : String) : List Nat := s.toList.map Char.toNat

/-- Four bytes, most significant first (`binary.BigEndian.PutUint32`). -/
def be32 (n : Nat) : List Nat :=
  [n / 16777216 % 256, n / 65536 % 256, n / 256 % 256, n % 256]

/-- Two bytes, most significant first (`binary.BigEndian.PutUint16`). -/
def be16 (n : Nat) : List Nat := [n / 256 % 256, n % 256]

/-- Go `net.ParseIP("2001:db8:f00f:cafe::99")`: the 16-byte address. -/
def leasedAddress : List Nat :=
  [0x20, 0x01, 0x0d, 0xb8, 0xf0, 0x0f, 0xca, 0xfe, 0, 0, 0, 0, 0, 0, 0, 0x99]

/-- Modelled from the spec: `MakeIaAddrOption` of `options.go`, an IA_Address
option holding an address, a preferred lifetime and a valid lifetime. -/
def MakeIaAddrOption (addr : List Nat) (preferredLifetime validLifetime : Nat) : DhcpOption :=
  let value := addr ++ be32 preferredLifetime ++ be32 validLifetime
  { Id := OptIaAddr, Length := value.length % 65536, Value := value }

/-- Modelled from the spec: `MakeIaNaOption` of `options.go`, an IA_NA option
whose value is the association id, the two timers and the nested IA_Address
option in its wire form (code, length, value). -/
def MakeIaNaOption (iaid : List Nat) (t1 t2 : Nat) (iaAddr : DhcpOption) : DhcpOption :=
  let value := iaid ++ be32 t1 ++ be32 t2 ++ (be16 iaAddr.Id ++ be16 iaAddr.Length ++ iaAddr.Value)
  { Id := OptIaNa, Length := value.length % 65536, Value := value }

/-- The Vendor Class value literal of `packet.go` (enterprise number, length
10 and the text HTTPClient). -/
def httpClientVendorClass : List Nat :=
  [0, 0, 0, 0, 0, 10, 72, 84, 84, 80, 67, 108, 105, 101, 110, 116]

/-- The option assembly shared by the three boot replies: a Vendor Class and
the EFI Boot File URL for the HTTP client architecture, the script Boot File
URL otherwise. -/
def addBootOptions (ret_options : Options) (clientArchType : List Nat) : Run Options := do
  let arch ← bigEndianUint16 clientArchType
  if 0x10 = arch then
    let ret_options := ret_options.AddOption
      { Id := OptVendorClass, Length := 16, Value := httpClientVendorClass }
    pure (ret_options.AddOption
      { Id := OptBootfileUrl, Length := 42,
        Value := bytesOfString "http://[2001:db8:f00f:cafe::4]/bootx64.efi" })
  else
    pure (ret_options.AddOption
      { Id := OptBootfileUrl, Length := 42,
        Value := bytesOfString "http://[2001:db8:f00f:cafe::4]/script.ipxe" })

/-- Go function `MakeMsgAdvertise` of `packet.go`. -/
def MakeMsgAdvertise (transactionId : Nat × Nat × Nat)
    (serverDuid clientId iaId clientArchType : List Nat) : Run Packet := do
  let ret_options : Options := []
  let ret_options := ret_options.AddOption
    { Id := OptClientId, Length := clientId.length % 65536, Value := clientId }
  let ret_options := ret_options.AddOption
    (MakeIaNaOption iaId 0 0 (MakeIaAddrOption leasedAddress 27000 43200))
  let ret_options := ret_options.AddOption
    { Id := OptServerId, Length := serverDuid.length % 65536, Value := serverDuid }
  let ret_options ← addBootOptions ret_options clientArchType
  pure { Typ := MsgAdvertise, TransactionID := transactionId, Options := ret_options }

/-- Go function `MakeMsgReply` of `packet.go`. -/
def MakeMsgReply (transactionId : Nat × Nat × Nat)
    (serverDuid clientId iaId clientArchType : List Nat) : Run Packet := do
  let ret_options : Options := []
  let ret_options := ret_options.AddOption
    { Id := OptClientId, Length := clientId.length % 65536, Value := clientId }
  let ret_options := ret_options.AddOption
    (MakeIaNaOption iaId 0 0 (MakeIaAddrOption leasedAddress 27000 43200))
  let ret_options := ret_options.AddOption
    { Id := OptServerId, Length := serverDuid.length % 65536, Value := serverDuid }
  let ret_options ← addBootOptions ret_options clientArchType
  pure { Typ := MsgReply, TransactionID := transactionId, Options := ret_options }

/-- Go function `MakeMsgInformationRequestReply` of `packet.go`. -/
def MakeMsgInformationRequestReply (transactionId : Nat × Nat × Nat)
    (serverDuid clientId clientArchType : List Nat) : Run Packet := do
  let ret_options : Options := []
  let ret_options := ret_options.AddOption
    { Id := OptClientId, Length := clientId.length % 65536, Value := clientId }
  let ret_options := ret_options.AddOption
    { Id := OptServerId, Length := serverDuid.length % 65536, Value := serverDuid }
  let ret_options ← addBootOptions ret_options clientArchType
  pure { Typ := MsgReply, TransactionID := transactionId, Options := ret_options }

/-- Go function `MakeMsgReleaseReply` of `packet.go`. -/
def MakeMsgReleaseReply (transactionId : Nat × Nat × Nat)
    (serverDuid clientId : List Nat) : Run Packet := do
  let ret_options : Options := []
  let ret_options := ret_options.AddOption
    { Id := OptClientId, Length := clientId.length % 65536, Value := clientId }
  let ret_options := ret_options.AddOption
    { Id := OptServerId, Length := serverDuid.length % 65536, Value := serverDuid }
  let v := List.replicate 19 0
  let v ← copyAt v 2 (bytesOfString "Release received.")
  let ret_options := ret_options.AddOption
    { Id := OptStatusCode, Length := v.length % 65536, Value := v }
  pure { Typ := MsgReply, TransactionID := transactionId, Options := ret_options }

/-- Go function `Packet.BuildResponse` of `packet.go`; `none` is the `nil` response. The
three option reads come before the dispatch on the type, as in the source. -/
def Packet.BuildResponse (p : Packet) (serverDuid : List Nat) : Run (Option Packet) := do
  let transactionId := p.TransactionID
  let clientId := (← p.Options.deref OptClientId).Value
  let iaNaId ← slice (← p.Options.deref OptIaNa).Value 0 4
  let clientArchType := (← p.Options.deref OptClientArchType).Value
  if p.Typ = MsgSolicit then
    some <$> MakeMsgAdvertise transactionId serverDuid clientId iaNaId clientArchType
  else if p.Typ = MsgRequest then
    some <$> MakeMsgReply transactionId serverDuid clientId iaNaId clientArchType
  else if p.Typ = MsgInformationRequest then
    some <$> MakeMsgInformationRequestReply transactionId serverDuid clientId clientArchType
  else if p.Typ = MsgRelease then
    some <$> MakeMsgReleaseReply transactionId serverDuid clientId
  else
    pure none

/-! ## Admission filter -/

/-- The errors the admission filter returns, one per `fmt.Errorf` call. -/
inductive DiscardError where
  | solicitNoBootFileUrl
  | solicitNoClientId
  | solicitHasServerId
  | requestNoBootFileUrl
  | requestNoClientId
  | requestNoServerId
  | requestServerIdMismatch (theirs ours : List Nat)
  | informationRequestNoBootFileUrl
  | informationRequestHasIa
  | informationRequestServerIdMismatch (theirs ours : List Nat)
  | unknownPacket
deriving DecidableEq, Repr

/-- Go formatting of a byte slice under the verb d: the decimal values in
square brackets, blank separated. -/
def formatBytes (bs : List Nat) : String :=
  "[" ++ " ".intercalate (bs.map toString) ++ "]"

/-- The text of each error, as its format string renders it. -/
def DiscardError.Error : DiscardError → String
  | .solicitNoBootFileUrl => "'Solicit' packet doesn't have file url option"
  | .solicitNoClientId => "'Solicit' packet has no client id option"
  | .solicitHasServerId => "'Solicit' packet has server id option"
  | .requestNoBootFileUrl => "'Request' packet doesn't have file url option"
  | .requestNoClientId => "'Request' packet has no client id option"
  | .requestNoServerId => "'Request' packet has no server id option"
  | .requestServerIdMismatch theirs ours =>
    "'Request' packet's server id option (" ++ formatBytes theirs
      ++ ") is different from ours (" ++ formatBytes ours ++ ")"
  | .informationRequestNoBootFileUrl =>
    "'Information-request' packet doesn't have boot file url option"
  | .informationRequestHasIa => "'Information-request' packet has an IA option present"
  | .informationRequestServerIdMismatch theirs ours =>
    "'Information-request' packet's server id option (" ++ formatBytes theirs
      ++ ") is different from ours (" ++ formatBytes ours ++ ")"
  | .unknownPacket => "Unknown packet"

/-- Go function `ShouldDiscardSolicit` of `packet.go`. -/
def ShouldDiscardSolicit (p : Packet) : Option DiscardError :=
  let options := p.Options
  if !options.RequestedBootFileUrlOption then
    some .solicitNoBootFileUrl
  else if !options.HasClientId then
    some .solicitNoClientId
  else if options.HasServerId then
    some .solicitHasServerId
  else
    none

/-- Go function `ShouldDiscardRequest` of `packet.go`. -/
def ShouldDiscardRequest (p : Packet) (serverDuid : List Nat) : Run (Option DiscardError) :=
  let options := p.Options
  if !options.RequestedBootFileUrlOption then
    pure (some .requestNoBootFileUrl)
  else if !options.HasClientId then
    pure (some .requestNoClientId)
  else if !options.HasServerId then
    pure (some .requestNoServerId)
  else do
    let theirs ← options.deref OptServerId
    if bytesCompare theirs.Value serverDuid != 0 then
      pure (some (.requestServerIdMismatch theirs.Value serverDuid))
    else
      pure none

/-- Go function `ShouldDiscardInformationRequest` of `packet.go`; the server id is read
only when `HasServerId` holds (`&&` evaluates its right side on demand). -/
def ShouldDiscardInformationRequest (p : Packet) (serverDuid : List Nat) :
    Run (Option DiscardError) :=
  let options := p.Options
  if !options.RequestedBootFileUrlOption then
    pure (some .informationRequestNoBootFileUrl)
  else if options.HasIaNa || options.HasIaTa then
    pure (some .informationRequestHasIa)
  else if options.HasServerId then do
    let theirs ← options.deref OptServerId
    if bytesCompare theirs.Value serverDuid != 0 then
      pure (some (.informationRequestServerIdMismatch theirs.Value serverDuid))
    else
      pure none
  else
    pure none

/-- Go function `Packet.ShouldDiscard` of `packet.go`; `none` is the `nil` error. -/
def Packet.ShouldDiscard (p : Packet) (serverDuid : List Nat) : Run (Option DiscardError) :=
  if p.Typ = MsgSolicit then pure (ShouldDiscardSolicit p)
  else if p.Typ = MsgRequest then ShouldDiscardRequest p serverDuid
  else if p.Typ = MsgInformationRequest then ShouldDiscardInformationRequest p serverDuid
  else if p.Typ = MsgRelease then pure none
  else pure (some .unknownPacket)

/-! ## A concrete option store for examples -/

/-- Modelled from the spec: `Option.Marshal`, the wire form of one option:
code and length as 16-bit big-endian numbers, then the value. -/
def DhcpOption.Marshal (opt : DhcpOption) : List Nat :=
  be16 opt.Id ++ be16 opt.Length ++ opt.Value

/-- Modelled from the spec: `Options.Marshal` of `options.go`, the options
block: every option in its wire form, one after the other. -/
def Options.Marshal (o : Options) : Except String (List Nat) :=
  .ok (o.map (fun e => e.2.Marshal)).flatten

/-- The parser loop of `MakeOptions`, bounded by `fuel` rounds. -/
def parseOptions : Nat → List Nat → Options → Except String Options
  | _, [], acc => .ok acc
  | 0, _ :: _, _ => .error "out of fuel"
  | fuel + 1, c0 :: c1 :: l0 :: l1 :: rest, acc =>
    let code := c0 * 256 + c1
    let len := l0 * 256 + l1
    if len ≤ rest.length then
      parseOptions fuel (rest.drop len)
        (acc ++ [(code, { Id := code, Length := len, Value := rest.take len })])
    else .error "option value is truncated"
  | _ + 1, _, _ => .error "option header is truncated"

/-- Modelled from the spec: `MakeOptions` of `options.go`, the parser of the
options block: repeated code, length, value records. -/
def MakeOptions (bs : List Nat) : Except String Options :=
  parseOptions bs.length bs []

/-! ## Example packets -/

/-- A packet with two options, used to exercise the codec. -/
def codecExample : Packet :=
  { Typ := MsgReply, TransactionID := (0xaa, 0xbb, 0xcc),
    Options := [(OptOro, { Id := OptOro, Length := 2, Value := [0, 59] }),
      (OptClientId, { Id := OptClientId, Length := 3, Value := [7, 8, 9] })] }

/-- An Information-Request asking for the Boot File URL, with a Client
Identifier and a Client Architecture Type and, as the admission filter demands
of this type, no IA_NA option. -/
def informationRequestExample : Packet :=
  { Typ := MsgInformationRequest, TransactionID := (1, 2, 3),
    Options := [(OptOro, { Id := OptOro, Length := 2, Value := [0, 59] }),
      (OptClientId, { Id := OptClientId, Length := 3, Value := [7, 8, 9] }),
      (OptClientArchType, { Id := OptClientArchType, Length := 2, Value := [0, 16] })] }

/-- An Information-Request asking for the Boot File URL that carries no other
option, in particular no Client Identifier. -/
def anonymousInformationRequest : Packet :=
  { Typ := MsgInformationRequest, TransactionID := (1, 2, 3),
    Options := [(OptOro, { Id := OptOro, Length := 2, Value := [0, 59] })] }

/-- A Solicit asking for the Boot File URL, with a Client Identifier, an IA_NA
and a Client Architecture Type. -/
def solicitExample : Packet :=
  { Typ := MsgSolicit, TransactionID := (1, 2, 3),
    Options := [(OptOro, { Id := OptOro, Length := 2, Value := [0, 59] }),
      (OptClientId, { Id := OptClientId, Length := 3, Value := [7, 8, 9] }),
      (OptIaNa, { Id := OptIaNa, Length := 12, Value := [1, 1, 1, 1, 0, 0, 0, 0, 0, 0, 0, 0] }),
      (OptClientArchType, { Id := OptClientArchType, Length := 2, Value := [0, 16] })] }

/-- The packet `solicitExample` sent as a Request to the server `[5, 6]`. -/
def requestExample : Packet :=
  { Typ := MsgRequest, TransactionID := (1, 2, 3),
    Options := solicitExample.Options.AddOption
      { Id := OptServerId, Length := 2, Value := [5, 6] } }

/-- A Release that carries a Client Identifier and nothing else. -/
def releaseExample : Packet :=
  { Typ := MsgRelease, TransactionID := (1, 2, 3),
    Options := [(OptClientId, { Id := OptClientId, Length := 3, Value := [7, 8, 9] })] }

/-- A Release without a Client Identifier, addressed to the server `[9, 9]`. -/
def foreignReleaseExample : Packet :=
  { Typ := MsgRelease, TransactionID := (1, 2, 3),
    Options := [(OptServerId, { Id := OptServerId, Length := 2, Value := [9, 9] })] }

/-- An Advertise without options. -/
def advertiseExample : Packet :=
  { Typ := MsgAdvertise, TransactionID := (1, 2, 3), Options := [] }

/-- A packet whose type byte, 200, is outside the enumeration. -/
def outOfRangeExample : Packet :=
  { Typ := 200, TransactionID := (1, 2, 3),
    Options := [(OptOro, { Id := OptOro, Length := 2, Value := [0, 59] }),
      (OptClientId, { Id := OptClientId, Length := 3, Value := [7, 8, 9] })] }

/-- A Request that breaks every admission rule at once: no option-request
list, no Client Identifier and no Server Identifier. -/
def emptyRequestExample : Packet :=
  { Typ := MsgRequest, TransactionID := (1, 2, 3), Options := [] }

/-! ## Values the builders are compared with -/

/-- The Vendor Class option `packet.go` adds for the HTTP client architecture. -/
def vendorClassOption : DhcpOption :=
  { Id := OptVendorClass, Length := 16, Value := httpClientVendorClass }

/-- The Boot File URL option `packet.go` adds for the HTTP client architecture. -/
def efiBootfileOption : DhcpOption :=
  { Id := OptBootfileUrl, Length := 42,
    Value := bytesOfString "http://[2001:db8:f00f:cafe::4]/bootx64.efi" }

/-- The Boot File URL option `packet.go` adds for every other architecture. -/
def scriptBootfileOption : DhcpOption :=
  { Id := OptBootfileUrl, Length := 42,
    Value := bytesOfString "http://[2001:db8:f00f:cafe::4]/script.ipxe" }

/-- The options `addBootOptions` returns when the architecture code is `c`. -/
def bootOptions (o : Options) (c : Nat) : Options :=
  if 0x10 = c then (o.AddOption vendorClassOption).AddOption efiBootfileOption
  else o.AddOption scriptBootfileOption

/-- The echoed Client Identifier option of every response. -/
def clientIdOption (clientId : List Nat) : DhcpOption :=
  { Id := OptClientId, Length := clientId.length % 65536, Value := clientId }

/-- The Server Identifier option of every response. -/
def serverIdOption (serverDuid : List Nat) : DhcpOption :=
  { Id := OptServerId, Length := serverDuid.length % 65536, Value := serverDuid }

/-- The Status Code option of the reply to a Release. -/
def releaseStatusOption : DhcpOption :=
  { Id := OptStatusCode, Length := 19,
    Value := [0, 0] ++ bytesOfString "Release received." }

/-- The options of the Advertise and of the Reply to a Request, for the
architecture code `c`. -/
def addressReplyOptions (serverDuid clientId iaId : List Nat) (c : Nat) : Options :=
  bootOptions
    (Options.AddOption
      (Options.AddOption (Options.AddOption [] (clientIdOption clientId))
        (MakeIaNaOption iaId 0 0 (MakeIaAddrOption leasedAddress 27000 43200)))
      (serverIdOption serverDuid)) c

/-- The options of the Reply to an Information-Request, for the architecture
code `c`. -/
def informationReplyOptions (serverDuid clientId : List Nat) (c : Nat) : Options :=
  bootOptions
    (Options.AddOption (Options.AddOption [] (clientIdOption clientId))
      (serverIdOption serverDuid)) c

/-- The options of the Reply to a Release. -/
def releaseReplyOptions (serverDuid clientId : List Nat) : Options :=
  Options.AddOption
    (Options.AddOption (Options.AddOption [] (clientIdOption clientId))
      (serverIdOption serverDuid))
    releaseStatusOption

/-- The response with its type set to Reply and nothing else changed. -/
def asReply (r : Packet) : Packet := { r with Typ := MsgReply }

end Dhcp6

namespace Dhcp6

/-! ## Basic facts about the run-time model -/

theorem sliceFrom_of_le (s : List Nat) (lo : Nat) (h : lo ≤ s.length) :
    sliceFrom s lo = .ret (s.drop lo) := by
  simp [sliceFrom, h]

theorem sliceFrom_of_lt (s : List Nat) (lo : Nat) (h : s.length < lo) :
    sliceFrom s lo = .panic (.sliceBounds lo s.length) := by
  simp [sliceFrom, Nat.not_le.mpr h]

theorem copy_replicate (n : Nat) (src : List Nat) :
    copy (List.replicate (src.length + n) 0) src = src ++ List.replicate n 0 := by
  simp [copy, List.take_of_length_le]

theorem Run.ret_bind {α β : Type} (a : α) (k : α → Run β) : (Run.ret a >>= k) = k a := rfl

theorem Run.panic_bind {α β : Type} (f : Fault) (k : α → Run β) :
    (Run.panic f >>= k) = Run.panic f := rfl

theorem Run.pure_eq {α : Type} (a : α) : (pure a : Run α) = Run.ret a := rfl

/-- The buffer `Packet.Marshal` fills: the header byte, the transaction id and
the serialized options, in this order. -/
theorem marshal_buffer (t0 t1 t2 : Nat) (o : List Nat) :
    (do
      let ret ← setIndex (List.replicate (o.length + 4) 0) 0 MsgAdvertise
      let ret ← copyAt ret 1 (tidBytes (t0, t1, t2))
      let ret ← copyAt ret 4 o
      (pure (Except.ok ret) : Run (Except String (List Nat)))) =
    .ret (.ok (MsgAdvertise :: t0 :: t1 :: t2 :: o)) := by
  have h4 : List.replicate (o.length + 4) 0 = 0 :: 0 :: 0 :: 0 :: List.replicate o.length 0 := by
    simp [List.replicate_succ]
  rw [h4]
  have hc := copy_replicate 0 o
  simp only [Nat.add_zero, List.replicate_zero, List.append_nil] at hc
  simp [setIndex, copyAt, sliceFrom, tidBytes, copy, Run.ret_bind, Run.pure_eq, hc,
    List.take_of_length_le]

/-! ## Packet codec: claims C1, C3, C4, C5 -/

/-- C1 (the code departs from the claim): on every buffer of fewer than four
bytes `MakePacket` does not return an error value; the slice expression
`bs[4:]` panics before the option parser is even called. -/
theorem MakePacket_short_buffer_panics (parse : List Nat → Except String Options)
    (bs : List Nat) (h : bs.length < 4) :
    MakePacket parse bs = .panic (.sliceBounds 4 bs.length) := by
  simp [MakePacket, sliceFrom_of_lt bs 4 h, Run.panic_bind]

theorem MakePacket_short_buffer_panics_witness :
    MakePacket MakeOptions [1, 0, 0] = .panic (.sliceBounds 4 3) :=
  MakePacket_short_buffer_panics MakeOptions [1, 0, 0] (by decide)

/-- C4: `Packet.Marshal` returns the Advertise byte `2`, the three transaction
id bytes and the serialized options, in this order, whatever the packet's own
type is; its length is four more than the options' length; packets that differ
in type only marshal to the same result; and when the options fail to
serialize the result is an error and no bytes. -/
theorem Marshal_layout (marshal : Options → Except String (List Nat)) (p : Packet) :
    (∀ o, marshal p.Options = .ok o →
      p.Marshal marshal =
          .ret (.ok ([2, p.TransactionID.1, p.TransactionID.2.1, p.TransactionID.2.2] ++ o)) ∧
        ([2, p.TransactionID.1, p.TransactionID.2.1, p.TransactionID.2.2] ++ o).length
          = 4 + o.length ∧
        ([2, p.TransactionID.1, p.TransactionID.2.1, p.TransactionID.2.2] ++ o).drop 4 = o) ∧
    (∀ e, marshal p.Options = .error e →
      p.Marshal marshal = .ret (.error ("packet has malformed options section: " ++ e))) ∧
    (∀ t : MessageType,
      Packet.Marshal marshal { p with Typ := t } = p.Marshal marshal) := by
  obtain ⟨typ, ⟨t0, t1, t2⟩, opts⟩ := p
  refine ⟨?_, ?_, ?_⟩
  · intro o ho
    refine ⟨?_, ?_, ?_⟩
    · simp only [Packet.Marshal, ho]
      exact marshal_buffer t0 t1 t2 o
    · simp only [List.length_append, List.length_cons, List.length_nil]
    · simp
  · intro e he
    simp only [Packet.Marshal, he]
    rfl
  · intro t
    rfl

/-- C5: on a buffer of at least four bytes `MakePacket` hands the bytes after
the fourth to the option parser; when the parser returns options the packet has
the first byte as its type, unchanged whatever its value, the next three bytes
as its transaction id and the parsed options; when the parser fails the result
is an error and no packet. The type constants are the ordinals 1 to 13, and a
buffer of exactly four bytes has the empty option block parsed. -/
theorem MakePacket_decodes (parse : List Nat → Except String Options)
    (b0 b1 b2 b3 : Nat) (rest : List Nat) :
    MakePacket parse (b0 :: b1 :: b2 :: b3 :: rest) =
      (match parse rest with
        | .ok options =>
          .ret (.ok { Typ := b0, TransactionID := (b1, b2, b3), Options := options })
        | .error err => .ret (.error ("packet has malformed options section: " ++ err))) ∧
    MakePacket parse [b0, b1, b2, b3] =
      (match parse [] with
        | .ok options =>
          .ret (.ok { Typ := b0, TransactionID := (b1, b2, b3), Options := options })
        | .error err => .ret (.error ("packet has malformed options section: " ++ err))) ∧
    [MsgSolicit, MsgAdvertise, MsgRequest, MsgConfirm, MsgRenew, MsgRebind, MsgReply,
      MsgRelease, MsgDecline, MsgReconfigure, MsgInformationRequest, MsgRelayForw,
      MsgRelayRepl] = [1, 2, 3, 4, 5, 6, 7, 8, 9, 10, 11, 12, 13] := by
  have key : ∀ tl : List Nat, MakePacket parse (b0 :: b1 :: b2 :: b3 :: tl) =
      (match parse tl with
        | .ok options =>
          .ret (.ok { Typ := b0, TransactionID := (b1, b2, b3), Options := options })
        | .error err => .ret (.error ("packet has malformed options section: " ++ err))) := by
    intro tl
    rcases hp : parse tl with err | options <;>
      simp [MakePacket, sliceFrom, hp, Run.ret_bind, Run.pure_eq, index, slice, copy,
        tidOfBytes]
  exact ⟨key rest, key [], rfl⟩

/-- C3: when the options of `p` serialize to `o` and the option parser reads
`o` back as the options of `p`, decoding the bytes `Packet.Marshal` returns
succeeds and gives the transaction id and the options of `p`, with the type
Advertise whatever the type of `p` was. -/
theorem MakePacket_Marshal_roundtrip (parse : List Nat → Except String Options)
    (marshal : Options → Except String (List Nat)) (p : Packet) (o : List Nat)
    (hser : marshal p.Options = .ok o) (hinv : parse o = .ok p.Options) :
    ∃ bs, p.Marshal marshal = .ret (.ok bs) ∧
      MakePacket parse bs = .ret (.ok
        { Typ := MsgAdvertise, TransactionID := p.TransactionID, Options := p.Options }) := by
  obtain ⟨typ, ⟨t0, t1, t2⟩, opts⟩ := p
  refine ⟨MsgAdvertise :: t0 :: t1 :: t2 :: o, ?_, ?_⟩
  · simp only [Packet.Marshal, hser]
    exact marshal_buffer t0 t1 t2 o
  · simp only at hinv
    simp [MakePacket, sliceFrom, hinv, Run.ret_bind, Run.pure_eq, index, slice, copy,
      tidOfBytes]

theorem MakePacket_Marshal_roundtrip_witness :
    ∃ bs, codecExample.Marshal Options.Marshal = .ret (.ok bs) ∧
      MakePacket MakeOptions bs = .ret (.ok
        { Typ := MsgAdvertise, TransactionID := codecExample.TransactionID,
          Options := codecExample.Options }) :=
  MakePacket_Marshal_roundtrip MakeOptions Options.Marshal codecExample
    [0, 6, 0, 2, 0, 59, 0, 1, 0, 3, 7, 8, 9] (by decide) (by decide)

theorem Marshal_layout_witness :
    codecExample.Marshal Options.Marshal =
        .ret (.ok ([2, 0xaa, 0xbb, 0xcc] ++ [0, 6, 0, 2, 0, 59, 0, 1, 0, 3, 7, 8, 9])) ∧
      codecExample.Marshal (fun _ => .error "value too long") =
        .ret (.error "packet has malformed options section: value too long") :=
  ⟨((Marshal_layout Options.Marshal codecExample).1 _ (by decide)).1,
    (Marshal_layout (fun _ => .error "value too long") codecExample).2.1 _ rfl⟩

/-! ## Option store facts -/

theorem find_AddOption (o : Options) (opt : DhcpOption) (k : Nat) :
    Options.find (o.AddOption opt) k = if k = opt.Id then some opt else o.find k := by
  unfold Options.find Options.AddOption
  induction o with
  | nil =>
    by_cases hk : k = opt.Id
    · simp [List.lookup, hk]
    · have hb : (k == opt.Id) = false := by simpa using hk
      simp [List.lookup, hk, hb]
  | cons e rest ih =>
    obtain ⟨a, v⟩ := e
    by_cases ha : a = opt.Id
    · simp only [List.filter_cons, ha, bne_self_eq_false, Bool.false_eq_true, if_false]
      rw [ih]
      by_cases hk : k = opt.Id
      · simp [hk]
      · have hb : (k == opt.Id) = false := by simpa using hk
        simp [hk, List.lookup_cons, hb]
    · have hne : (a != opt.Id) = true := by simpa using ha
      simp only [List.filter_cons, hne, if_true, List.cons_append, List.lookup_cons]
      rw [ih]
      by_cases hka : k = a
      · subst hka
        simp [ha]
      · have : (k == a) = false := by simpa using hka
        simp [this]

theorem Has_iff_find (o : Options) (k : Nat) :
    o.Has k = true ↔ ∃ opt, o.find k = some opt := by
  simp [Options.Has, Option.isSome_iff_exists]

theorem Has_false_iff_find (o : Options) (k : Nat) :
    o.Has k = false ↔ o.find k = none := by
  cases h : o.find k <;> simp [Options.Has, h]

theorem bytesCompare_eq_zero (a b : List Nat) : bytesCompare a b = 0 ↔ a = b := by
  induction a generalizing b with
  | nil => cases b <;> simp [bytesCompare]
  | cons x xs ih =>
    cases b with
    | nil => simp [bytesCompare]
    | cons y ys =>
      simp only [bytesCompare]
      by_cases h1 : x < y
      · simp [h1]; omega
      · by_cases h2 : y < x
        · simp [h1, h2]; omega
        · have : x = y := by omega
          simp [h1, h2, ih, this]

theorem deref_of_find (o : Options) (k : Nat) (opt : DhcpOption) (h : o.find k = some opt) :
    o.deref k = .ret opt := by
  simp [Options.deref, h]

theorem deref_of_find_none (o : Options) (k : Nat) (h : o.find k = none) :
    o.deref k = .panic .nilDeref := by
  simp [Options.deref, h]

theorem addBootOptions_returns (o : Options) (arch : List Nat) (h : 2 ≤ arch.length) :
    ∃ o2, addBootOptions o arch = .ret o2 := by
  match arch, h with
  | b0 :: b1 :: tl, _ =>
    simp only [addBootOptions, bigEndianUint16, Run.ret_bind]
    split <;> exact ⟨_, rfl⟩

theorem slice_prefix (v : List Nat) (n : Nat) (h : n ≤ v.length) :
    slice v 0 n = .ret (v.take n) := by
  simp [slice, h]

theorem Run.map_ret {α β : Type} (f : α → β) (a : α) : (f <$> Run.ret a) = Run.ret (f a) := rfl

theorem MakeMsgAdvertise_returns (tid : Nat × Nat × Nat)
    (serverDuid clientId iaId arch : List Nat) (h : 2 ≤ arch.length) :
    ∃ o, MakeMsgAdvertise tid serverDuid clientId iaId arch =
      .ret { Typ := MsgAdvertise, TransactionID := tid, Options := o } := by
  match arch, h with
  | b0 :: b1 :: tl, _ =>
    simp only [MakeMsgAdvertise, addBootOptions, bigEndianUint16, Run.ret_bind]
    split <;> exact ⟨_, rfl⟩

theorem MakeMsgReply_returns (tid : Nat × Nat × Nat)
    (serverDuid clientId iaId arch : List Nat) (h : 2 ≤ arch.length) :
    ∃ o, MakeMsgReply tid serverDuid clientId iaId arch =
      .ret { Typ := MsgReply, TransactionID := tid, Options := o } := by
  match arch, h with
  | b0 :: b1 :: tl, _ =>
    simp only [MakeMsgReply, addBootOptions, bigEndianUint16, Run.ret_bind]
    split <;> exact ⟨_, rfl⟩

theorem MakeMsgInformationRequestReply_returns (tid : Nat × Nat × Nat)
    (serverDuid clientId arch : List Nat) (h : 2 ≤ arch.length) :
    ∃ o, MakeMsgInformationRequestReply tid serverDuid clientId arch =
      .ret { Typ := MsgReply, TransactionID := tid, Options := o } := by
  match arch, h with
  | b0 :: b1 :: tl, _ =>
    simp only [MakeMsgInformationRequestReply, addBootOptions, bigEndianUint16, Run.ret_bind]
    split <;> exact ⟨_, rfl⟩

theorem MakeMsgReleaseReply_returns (tid : Nat × Nat × Nat) (serverDuid clientId : List Nat) :
    ∃ o, MakeMsgReleaseReply tid serverDuid clientId =
      .ret { Typ := MsgReply, TransactionID := tid, Options := o } :=
  ⟨_, rfl⟩

/-- An Information-Request that the admission filter accepts has no IA_NA. -/
theorem informationRequest_accepted_no_iaNa (p : Packet) (serverDuid : List Nat)
    (hp : p.Typ = MsgInformationRequest) (hacc : p.ShouldDiscard serverDuid = .ret none) :
    p.Options.find OptIaNa = none := by
  rcases hna : p.Options.HasIaNa
  · exact (Has_false_iff_find _ _).mp hna
  · exfalso
    rcases hurl : p.Options.RequestedBootFileUrlOption <;>
      simp [Packet.ShouldDiscard, hp, MsgInformationRequest, MsgSolicit, MsgRequest,
        ShouldDiscardInformationRequest, hurl, hna, Run.pure_eq] at hacc

/-! ## Admission filter: claims C6, C7, C8, C9 -/

/-- C6: a Solicit is accepted exactly when it requests the Boot File URL,
carries a Client Identifier and carries no Server Identifier; the server id
argument plays no part; and an accepted Solicit to which a Server Identifier
option is added is rejected, as a Solicit that has a server id option. -/
theorem ShouldDiscard_Solicit_iff (p : Packet) (serverDuid : List Nat)
    (hp : p.Typ = MsgSolicit) :
    (p.ShouldDiscard serverDuid = .ret none ↔
      p.Options.RequestedBootFileUrlOption = true ∧ p.Options.HasClientId = true ∧
        p.Options.HasServerId = false) ∧
    (∀ other : List Nat, p.ShouldDiscard other = p.ShouldDiscard serverDuid) ∧
    (p.ShouldDiscard serverDuid = .ret none →
      ∀ sid : DhcpOption, sid.Id = OptServerId →
        Packet.ShouldDiscard { p with Options := p.Options.AddOption sid } serverDuid
          = .ret (some .solicitHasServerId)) := by
  have hform : ∀ (q : Packet) (d : List Nat), q.Typ = MsgSolicit →
      q.ShouldDiscard d = .ret (ShouldDiscardSolicit q) := by
    intro q d hq
    simp [Packet.ShouldDiscard, hq, Run.pure_eq]
  have hiff : ∀ q : Packet, ShouldDiscardSolicit q = none ↔
      q.Options.RequestedBootFileUrlOption = true ∧ q.Options.HasClientId = true ∧
        q.Options.HasServerId = false := by
    intro q
    rcases h1 : q.Options.RequestedBootFileUrlOption <;> rcases h2 : q.Options.HasClientId <;>
      rcases h3 : q.Options.HasServerId <;> simp [ShouldDiscardSolicit, h1, h2, h3]
  refine ⟨?_, ?_, ?_⟩
  · rw [hform p serverDuid hp]
    constructor
    · intro h
      exact (hiff p).mp (by injection h)
    · intro h
      rw [(hiff p).mpr h]
  · intro other
    rw [hform p other hp, hform p serverDuid hp]
  · intro hacc sid hsid
    rw [hform p serverDuid hp] at hacc
    obtain ⟨hurl, hcid, _⟩ := (hiff p).mp (by injection hacc)
    rw [hform { p with Options := p.Options.AddOption sid } serverDuid hp]
    have hurl2 : (p.Options.AddOption sid).RequestedBootFileUrlOption = true := by
      unfold Options.RequestedBootFileUrlOption at hurl ⊢
      rw [find_AddOption, hsid]
      simpa [OptOro, OptServerId] using hurl
    have hcid2 : (p.Options.AddOption sid).HasClientId = true := by
      unfold Options.HasClientId Options.Has at hcid ⊢
      rw [find_AddOption, hsid]
      simpa [OptClientId, OptServerId] using hcid
    have hsid2 : (p.Options.AddOption sid).HasServerId = true := by
      unfold Options.HasServerId Options.Has
      rw [find_AddOption, hsid]
      simp
    simp [ShouldDiscardSolicit, hurl2, hcid2, hsid2]

theorem ShouldDiscard_Solicit_iff_witness :
    (solicitExample.ShouldDiscard [5, 6] = .ret none ↔
      solicitExample.Options.RequestedBootFileUrlOption = true ∧
        solicitExample.Options.HasClientId = true ∧
        solicitExample.Options.HasServerId = false) ∧
    (∀ other : List Nat,
      solicitExample.ShouldDiscard other = solicitExample.ShouldDiscard [5, 6]) ∧
    (solicitExample.ShouldDiscard [5, 6] = .ret none →
      ∀ sid : DhcpOption, sid.Id = OptServerId →
        Packet.ShouldDiscard
            { solicitExample with Options := solicitExample.Options.AddOption sid } [5, 6]
          = .ret (some .solicitHasServerId)) :=
  ShouldDiscard_Solicit_iff solicitExample [5, 6] (by decide)

/-- C7: a Request that requests the Boot File URL and carries a Client
Identifier and a Server Identifier `sid` is accepted exactly when the value of
`sid` equals the configured server id; when the two differ, in a byte or in
length, it is rejected with the server-id-mismatch error. -/
theorem ShouldDiscard_Request_serverId (p : Packet) (serverDuid : List Nat)
    (sid : DhcpOption) (hp : p.Typ = MsgRequest)
    (hurl : p.Options.RequestedBootFileUrlOption = true)
    (hcid : p.Options.HasClientId = true)
    (hsid : p.Options.find OptServerId = some sid) :
    (p.ShouldDiscard serverDuid = .ret none ↔ sid.Value = serverDuid) ∧
    (sid.Value ≠ serverDuid →
      p.ShouldDiscard serverDuid =
        .ret (some (.requestServerIdMismatch sid.Value serverDuid))) := by
  have hhas : p.Options.HasServerId = true := by
    simp [Options.HasServerId, Options.Has, hsid]
  have hform : p.ShouldDiscard serverDuid =
      if bytesCompare sid.Value serverDuid != 0 then
        .ret (some (.requestServerIdMismatch sid.Value serverDuid))
      else .ret none := by
    simp [Packet.ShouldDiscard, hp, MsgRequest, MsgSolicit, ShouldDiscardRequest, hurl, hcid,
      hhas, deref_of_find _ _ _ hsid, Run.ret_bind, Run.pure_eq]
  rw [hform]
  by_cases heq : sid.Value = serverDuid
  · have h0 : bytesCompare sid.Value serverDuid = 0 := (bytesCompare_eq_zero _ _).mpr heq
    simp only [h0, bne_self_eq_false, Bool.false_eq_true, if_false, true_iff]
    exact ⟨heq, fun hne => absurd heq hne⟩
  · have h0 : bytesCompare sid.Value serverDuid ≠ 0 :=
      fun h => heq ((bytesCompare_eq_zero _ _).mp h)
    simp [h0, heq]

theorem ShouldDiscard_Request_serverId_witness :
    (requestExample.ShouldDiscard [5, 7] = .ret none ↔ [5, 6] = [5, 7]) ∧
    ([5, 6] ≠ [5, 7] →
      requestExample.ShouldDiscard [5, 7] =
        .ret (some (.requestServerIdMismatch [5, 6] [5, 7]))) :=
  ShouldDiscard_Request_serverId requestExample [5, 7]
    { Id := OptServerId, Length := 2, Value := [5, 6] } (by decide) (by decide) (by decide)
    (by decide)

/-- C8: an Information-Request is accepted exactly when it requests the Boot
File URL, carries neither an IA_NA nor an IA_Temporary-Address option, and
either carries no Server Identifier or carries one whose value equals the
configured server id. -/
theorem ShouldDiscard_InformationRequest_iff (p : Packet) (serverDuid : List Nat)
    (hp : p.Typ = MsgInformationRequest) :
    p.ShouldDiscard serverDuid = .ret none ↔
      p.Options.RequestedBootFileUrlOption = true ∧ p.Options.HasIaNa = false ∧
        p.Options.HasIaTa = false ∧
        (p.Options.find OptServerId = none ∨
          ∃ sid, p.Options.find OptServerId = some sid ∧ sid.Value = serverDuid) := by
  have hform : p.ShouldDiscard serverDuid = ShouldDiscardInformationRequest p serverDuid := by
    simp [Packet.ShouldDiscard, hp, MsgInformationRequest, MsgSolicit, MsgRequest]
  rw [hform]
  rcases hurl : p.Options.RequestedBootFileUrlOption
  · simp [ShouldDiscardInformationRequest, hurl, Run.pure_eq]
  rcases hna : p.Options.HasIaNa
  case true => simp [ShouldDiscardInformationRequest, hurl, hna, Run.pure_eq]
  rcases hta : p.Options.HasIaTa
  case true => simp [ShouldDiscardInformationRequest, hurl, hna, hta, Run.pure_eq]
  rcases hfind : p.Options.find OptServerId with _ | sid
  · have hhas : p.Options.HasServerId = false := by
      simp [Options.HasServerId, Options.Has, hfind]
    simp [ShouldDiscardInformationRequest, hurl, hna, hta, hhas, Run.pure_eq]
  · have hhas : p.Options.HasServerId = true := by
      simp [Options.HasServerId, Options.Has, hfind]
    by_cases heq : sid.Value = serverDuid
    · have h0 : bytesCompare sid.Value serverDuid = 0 := (bytesCompare_eq_zero _ _).mpr heq
      simp only [ShouldDiscardInformationRequest, hurl, hna, hta, hhas,
        deref_of_find _ _ _ hfind, Run.ret_bind, Run.pure_eq, h0]
      simp [heq]
    · have h0 : bytesCompare sid.Value serverDuid ≠ 0 :=
        fun h => heq ((bytesCompare_eq_zero _ _).mp h)
      simp [ShouldDiscardInformationRequest, hurl, hna, hta, hhas,
        deref_of_find _ _ _ hfind, Run.ret_bind, Run.pure_eq, h0, heq]

theorem ShouldDiscard_InformationRequest_iff_witness :
    informationRequestExample.ShouldDiscard [5, 6] = .ret none ↔
      informationRequestExample.Options.RequestedBootFileUrlOption = true ∧
        informationRequestExample.Options.HasIaNa = false ∧
        informationRequestExample.Options.HasIaTa = false ∧
        (informationRequestExample.Options.find OptServerId = none ∨
          ∃ sid, informationRequestExample.Options.find OptServerId = some sid ∧
            sid.Value = [5, 6]) :=
  ShouldDiscard_InformationRequest_iff informationRequestExample [5, 6] (by decide)

/-- C9 as stated fails: `anonymousInformationRequest` is an Information-Request
that the admission filter accepts and that carries no Client Identifier. -/
theorem accepted_InformationRequest_without_clientId :
    anonymousInformationRequest.Typ = MsgInformationRequest ∧
      anonymousInformationRequest.ShouldDiscard [5, 6] = .ret none ∧
      anonymousInformationRequest.Options.HasClientId = false ∧
      anonymousInformationRequest.Options.find OptClientId = none := by
  decide

/-- C9 (amended): every Solicit and every Request that the admission filter
accepts, for any server id, contains a Client Identifier option. -/
theorem accepted_Solicit_or_Request_has_clientId (p : Packet) (serverDuid : List Nat)
    (hp : p.Typ = MsgSolicit ∨ p.Typ = MsgRequest)
    (hacc : p.ShouldDiscard serverDuid = .ret none) :
    p.Options.HasClientId = true ∧ ∃ cid, p.Options.find OptClientId = some cid := by
  have hcid : p.Options.HasClientId = true := by
    rcases hc : p.Options.HasClientId
    · exfalso
      rcases hurl : p.Options.RequestedBootFileUrlOption <;> rcases hp with hp | hp <;>
        simp [Packet.ShouldDiscard, hp, MsgSolicit, MsgRequest, ShouldDiscardSolicit,
          ShouldDiscardRequest, hurl, hc, Run.pure_eq] at hacc
    · rfl
  exact ⟨hcid, (Has_iff_find _ _).mp hcid⟩

theorem accepted_Solicit_or_Request_has_clientId_witness :
    requestExample.Options.HasClientId = true ∧
      ∃ cid, requestExample.Options.find OptClientId = some cid :=
  accepted_Solicit_or_Request_has_clientId requestExample [5, 6] (Or.inr (by decide))
    (by decide)

/-! ## Response builder: claims C2, C10 -/

/-- C2 (the code departs from the claim): acceptance by the admission filter
does not make `BuildResponse` safe. Every Information-Request that the filter
accepts has no IA_NA option, and `BuildResponse` reads the value of that option
before it looks at the type, so it panics on a nil pointer. -/
theorem accepted_InformationRequest_BuildResponse_panics (p : Packet)
    (serverDuid : List Nat) (hp : p.Typ = MsgInformationRequest)
    (hacc : p.ShouldDiscard serverDuid = .ret none) :
    p.BuildResponse serverDuid = .panic .nilDeref := by
  have hfind : p.Options.find OptIaNa = none :=
    informationRequest_accepted_no_iaNa p serverDuid hp hacc
  unfold Packet.BuildResponse
  rcases hc : p.Options.find OptClientId with _ | cid
  · simp [deref_of_find_none _ _ hc, Run.panic_bind]
  · simp [deref_of_find _ _ _ hc, deref_of_find_none _ _ hfind, Run.ret_bind, Run.panic_bind]

theorem accepted_InformationRequest_BuildResponse_panics_witness :
    informationRequestExample.ShouldDiscard [5, 6] = .ret none ∧
      informationRequestExample.BuildResponse [5, 6] = .panic .nilDeref :=
  ⟨by decide,
    accepted_InformationRequest_BuildResponse_panics informationRequestExample [5, 6]
      (by decide) (by decide)⟩

/-- C10: for a request that carries a Client Identifier, an IA_NA option with a
value of at least four bytes and a Client Architecture Type with a value of at
least two bytes, `BuildResponse` returns a packet; its type is Advertise for a
Solicit and Reply for a Request, an Information-Request and a Release, and its
transaction id is the transaction id of the request. -/
theorem BuildResponse_type_and_transactionId (p : Packet) (serverDuid : List Nat)
    (cid iaNa arch : DhcpOption)
    (hcid : p.Options.find OptClientId = some cid)
    (hiaNa : p.Options.find OptIaNa = some iaNa) (hiaLen : 4 ≤ iaNa.Value.length)
    (harch : p.Options.find OptClientArchType = some arch) (harchLen : 2 ≤ arch.Value.length)
    (hp : p.Typ = MsgSolicit ∨ p.Typ = MsgRequest ∨ p.Typ = MsgInformationRequest ∨
      p.Typ = MsgRelease) :
    ∃ r, p.BuildResponse serverDuid = .ret (some r) ∧
      r.Typ = (if p.Typ = MsgSolicit then MsgAdvertise else MsgReply) ∧
      r.TransactionID = p.TransactionID := by
  unfold Packet.BuildResponse
  simp only [deref_of_find _ _ _ hcid, deref_of_find _ _ _ hiaNa, deref_of_find _ _ _ harch,
    slice_prefix _ 4 hiaLen, Run.ret_bind]
  rcases hp with hp | hp | hp | hp
  · obtain ⟨o2, ho2⟩ := MakeMsgAdvertise_returns p.TransactionID serverDuid cid.Value
      (iaNa.Value.take 4) arch.Value harchLen
    refine ⟨{ Typ := MsgAdvertise, TransactionID := p.TransactionID, Options := o2 },
      ?_, ?_, rfl⟩
    · simp [hp, ho2, Run.map_ret]
    · simp [hp]
  · obtain ⟨o2, ho2⟩ := MakeMsgReply_returns p.TransactionID serverDuid cid.Value
      (iaNa.Value.take 4) arch.Value harchLen
    refine ⟨{ Typ := MsgReply, TransactionID := p.TransactionID, Options := o2 }, ?_, ?_, rfl⟩
    · simp [hp, MsgRequest, MsgSolicit, ho2, Run.map_ret]
    · simp [hp, MsgRequest, MsgSolicit]
  · obtain ⟨o2, ho2⟩ := MakeMsgInformationRequestReply_returns p.TransactionID serverDuid
      cid.Value arch.Value harchLen
    refine ⟨{ Typ := MsgReply, TransactionID := p.TransactionID, Options := o2 }, ?_, ?_, rfl⟩
    · simp [hp, MsgInformationRequest, MsgRequest, MsgSolicit, ho2, Run.map_ret]
    · simp [hp, MsgInformationRequest, MsgSolicit]
  · obtain ⟨o2, ho2⟩ := MakeMsgReleaseReply_returns p.TransactionID serverDuid cid.Value
    refine ⟨{ Typ := MsgReply, TransactionID := p.TransactionID, Options := o2 }, ?_, ?_, rfl⟩
    · simp [hp, MsgRelease, MsgInformationRequest, MsgRequest, MsgSolicit, ho2, Run.map_ret]
    · simp [hp, MsgRelease, MsgSolicit]

theorem BuildResponse_type_and_transactionId_witness :
    ∃ r, solicitExample.BuildResponse [5, 6] = .ret (some r) ∧
      r.Typ = (if solicitExample.Typ = MsgSolicit then MsgAdvertise else MsgReply) ∧
      r.TransactionID = solicitExample.TransactionID :=
  BuildResponse_type_and_transactionId solicitExample [5, 6]
    { Id := OptClientId, Length := 3, Value := [7, 8, 9] }
    { Id := OptIaNa, Length := 12, Value := [1, 1, 1, 1, 0, 0, 0, 0, 0, 0, 0, 0] }
    { Id := OptClientArchType, Length := 2, Value := [0, 16] }
    (by decide) (by decide) (by decide) (by decide) (by decide) (Or.inl (by decide))

/-! ## Builders, equation by equation -/

theorem find_nil (k : Nat) : Options.find [] k = none := rfl

theorem bigEndianUint16_returns (arch : List Nat) (h : 2 ≤ arch.length) :
    ∃ c, bigEndianUint16 arch = .ret c := by
  match arch, h with
  | b0 :: b1 :: tl, _ => exact ⟨_, rfl⟩

theorem addBootOptions_eq (o : Options) (arch : List Nat) (c : Nat)
    (h : bigEndianUint16 arch = .ret c) :
    addBootOptions o arch = .ret (bootOptions o c) := by
  simp only [addBootOptions, h, Run.ret_bind, bootOptions]
  split <;> rfl

theorem addBootOptions_panics (o : Options) (arch : List Nat) (f : Fault)
    (h : bigEndianUint16 arch = .panic f) :
    addBootOptions o arch = .panic f := by
  simp only [addBootOptions, h, Run.panic_bind]

theorem MakeMsgAdvertise_eq (tid : Nat × Nat × Nat) (serverDuid clientId iaId arch : List Nat)
    (c : Nat) (h : bigEndianUint16 arch = .ret c) :
    MakeMsgAdvertise tid serverDuid clientId iaId arch =
      .ret { Typ := MsgAdvertise, TransactionID := tid,
             Options := addressReplyOptions serverDuid clientId iaId c } := by
  simp only [MakeMsgAdvertise, addressReplyOptions, clientIdOption, serverIdOption,
    addBootOptions_eq _ _ _ h, Run.ret_bind, Run.pure_eq]

theorem MakeMsgReply_eq (tid : Nat × Nat × Nat) (serverDuid clientId iaId arch : List Nat)
    (c : Nat) (h : bigEndianUint16 arch = .ret c) :
    MakeMsgReply tid serverDuid clientId iaId arch =
      .ret { Typ := MsgReply, TransactionID := tid,
             Options := addressReplyOptions serverDuid clientId iaId c } := by
  simp only [MakeMsgReply, addressReplyOptions, clientIdOption, serverIdOption,
    addBootOptions_eq _ _ _ h, Run.ret_bind, Run.pure_eq]

theorem MakeMsgInformationRequestReply_eq (tid : Nat × Nat × Nat)
    (serverDuid clientId arch : List Nat) (c : Nat) (h : bigEndianUint16 arch = .ret c) :
    MakeMsgInformationRequestReply tid serverDuid clientId arch =
      .ret { Typ := MsgReply, TransactionID := tid,
             Options := informationReplyOptions serverDuid clientId c } := by
  simp only [MakeMsgInformationRequestReply, informationReplyOptions, clientIdOption,
    serverIdOption, addBootOptions_eq _ _ _ h, Run.ret_bind, Run.pure_eq]

theorem MakeMsgReleaseReply_eq (tid : Nat × Nat × Nat) (serverDuid clientId : List Nat) :
    MakeMsgReleaseReply tid serverDuid clientId =
      .ret { Typ := MsgReply, TransactionID := tid,
             Options := releaseReplyOptions serverDuid clientId } := rfl

theorem find_bootOptions (o : Options) (c k : Nat) :
    Options.find (bootOptions o c) k =
      if k = OptBootfileUrl then some (if 0x10 = c then efiBootfileOption else scriptBootfileOption)
      else if k = OptVendorClass ∧ 0x10 = c then some vendorClassOption
      else o.find k := by
  unfold bootOptions
  by_cases hc : 0x10 = c
  · simp only [hc, if_true, find_AddOption, efiBootfileOption, vendorClassOption, and_true]
  · simp only [hc, if_false, find_AddOption, scriptBootfileOption, and_false]

theorem find_addressReplyOptions_clientId (serverDuid clientId iaId : List Nat) (c : Nat) :
    Options.find (addressReplyOptions serverDuid clientId iaId c) OptClientId =
      some (clientIdOption clientId) := by
  simp [addressReplyOptions, find_bootOptions, find_AddOption, find_nil, clientIdOption,
    serverIdOption, MakeIaNaOption, OptClientId, OptBootfileUrl, OptVendorClass, OptServerId,
    OptIaNa]

theorem find_addressReplyOptions_serverId (serverDuid clientId iaId : List Nat) (c : Nat) :
    Options.find (addressReplyOptions serverDuid clientId iaId c) OptServerId =
      some (serverIdOption serverDuid) := by
  simp [addressReplyOptions, find_bootOptions, find_AddOption, find_nil, clientIdOption,
    serverIdOption, MakeIaNaOption, OptClientId, OptBootfileUrl, OptVendorClass, OptServerId,
    OptIaNa]

theorem find_informationReplyOptions_clientId (serverDuid clientId : List Nat) (c : Nat) :
    Options.find (informationReplyOptions serverDuid clientId c) OptClientId =
      some (clientIdOption clientId) := by
  simp [informationReplyOptions, find_bootOptions, find_AddOption, find_nil, clientIdOption,
    serverIdOption, OptClientId, OptBootfileUrl, OptVendorClass, OptServerId]

theorem find_informationReplyOptions_serverId (serverDuid clientId : List Nat) (c : Nat) :
    Options.find (informationReplyOptions serverDuid clientId c) OptServerId =
      some (serverIdOption serverDuid) := by
  simp [informationReplyOptions, find_bootOptions, find_AddOption, find_nil, clientIdOption,
    serverIdOption, OptClientId, OptBootfileUrl, OptVendorClass, OptServerId]

theorem find_releaseReplyOptions_clientId (serverDuid clientId : List Nat) :
    Options.find (releaseReplyOptions serverDuid clientId) OptClientId =
      some (clientIdOption clientId) := by
  simp [releaseReplyOptions, find_AddOption, find_nil, clientIdOption, serverIdOption,
    releaseStatusOption, OptClientId, OptStatusCode, OptServerId]

theorem find_releaseReplyOptions_serverId (serverDuid clientId : List Nat) :
    Options.find (releaseReplyOptions serverDuid clientId) OptServerId =
      some (serverIdOption serverDuid) := by
  simp [releaseReplyOptions, find_AddOption, find_nil, clientIdOption, serverIdOption,
    releaseStatusOption, OptClientId, OptStatusCode, OptServerId]

theorem find_addressReplyOptions_boot (serverDuid clientId iaId : List Nat) (c : Nat) :
    Options.find (addressReplyOptions serverDuid clientId iaId c) OptBootfileUrl =
        some (if 0x10 = c then efiBootfileOption else scriptBootfileOption) ∧
      Options.find (addressReplyOptions serverDuid clientId iaId c) OptVendorClass =
        (if 0x10 = c then some vendorClassOption else none) := by
  by_cases hc : 0x10 = c
  · subst hc
    simp [addressReplyOptions, find_bootOptions, find_AddOption, find_nil, clientIdOption,
      serverIdOption, MakeIaNaOption, OptClientId, OptBootfileUrl, OptVendorClass, OptServerId,
      OptIaNa]
  · simp [addressReplyOptions, find_bootOptions, find_AddOption, find_nil, clientIdOption,
      serverIdOption, MakeIaNaOption, OptClientId, OptBootfileUrl, OptVendorClass, OptServerId,
      OptIaNa, hc]

theorem find_informationReplyOptions_boot (serverDuid clientId : List Nat) (c : Nat) :
    Options.find (informationReplyOptions serverDuid clientId c) OptBootfileUrl =
        some (if 0x10 = c then efiBootfileOption else scriptBootfileOption) ∧
      Options.find (informationReplyOptions serverDuid clientId c) OptVendorClass =
        (if 0x10 = c then some vendorClassOption else none) := by
  by_cases hc : 0x10 = c
  · subst hc
    simp [informationReplyOptions, find_bootOptions, find_AddOption, find_nil, clientIdOption,
      serverIdOption, OptClientId, OptBootfileUrl, OptVendorClass, OptServerId]
  · simp [informationReplyOptions, find_bootOptions, find_AddOption, find_nil, clientIdOption,
      serverIdOption, OptClientId, OptBootfileUrl, OptVendorClass, OptServerId, hc]

/-- The result of `BuildResponse` once its three option reads succeed and the
architecture value holds a 16-bit code. -/
theorem BuildResponse_eq (p : Packet) (serverDuid : List Nat) (cid iaNa arch : DhcpOption)
    (c : Nat)
    (hcid : p.Options.find OptClientId = some cid)
    (hiaNa : p.Options.find OptIaNa = some iaNa) (hiaLen : 4 ≤ iaNa.Value.length)
    (harch : p.Options.find OptClientArchType = some arch)
    (hc : bigEndianUint16 arch.Value = .ret c) :
    p.BuildResponse serverDuid = .ret
      (if p.Typ = MsgSolicit then
        some { Typ := MsgAdvertise, TransactionID := p.TransactionID,
               Options := addressReplyOptions serverDuid cid.Value (iaNa.Value.take 4) c }
      else if p.Typ = MsgRequest then
        some { Typ := MsgReply, TransactionID := p.TransactionID,
               Options := addressReplyOptions serverDuid cid.Value (iaNa.Value.take 4) c }
      else if p.Typ = MsgInformationRequest then
        some { Typ := MsgReply, TransactionID := p.TransactionID,
               Options := informationReplyOptions serverDuid cid.Value c }
      else if p.Typ = MsgRelease then
        some { Typ := MsgReply, TransactionID := p.TransactionID,
               Options := releaseReplyOptions serverDuid cid.Value }
      else none) := by
  unfold Packet.BuildResponse
  simp only [deref_of_find _ _ _ hcid, deref_of_find _ _ _ hiaNa, deref_of_find _ _ _ harch,
    slice_prefix _ 4 hiaLen, Run.ret_bind, MakeMsgAdvertise_eq _ _ _ _ _ c hc,
    MakeMsgReply_eq _ _ _ _ _ c hc, MakeMsgInformationRequestReply_eq _ _ _ _ c hc,
    MakeMsgReleaseReply_eq, Run.map_ret, Run.pure_eq]
  split_ifs <;> rfl

/-- The options `BuildResponse` reads before it looks at the type: without a
Client Identifier it panics. -/
theorem BuildResponse_panics_without_clientId (p : Packet) (serverDuid : List Nat)
    (h : p.Options.find OptClientId = none) :
    p.BuildResponse serverDuid = .panic .nilDeref := by
  unfold Packet.BuildResponse
  simp [deref_of_find_none _ _ h, Run.panic_bind]

/-- Without an IA_NA, `BuildResponse` panics whatever the type is. -/
theorem BuildResponse_panics_without_iaNa (p : Packet) (serverDuid : List Nat)
    (h : p.Options.find OptIaNa = none) :
    p.BuildResponse serverDuid = .panic .nilDeref := by
  unfold Packet.BuildResponse
  rcases hc : p.Options.find OptClientId with _ | cid
  · simp [deref_of_find_none _ _ hc, Run.panic_bind]
  · simp [deref_of_find _ _ _ hc, deref_of_find_none _ _ h, Run.ret_bind, Run.panic_bind]

theorem MakeMsgAdvertise_inv (tid : Nat × Nat × Nat) (serverDuid clientId iaId arch : List Nat)
    (r : Packet) (h : MakeMsgAdvertise tid serverDuid clientId iaId arch = .ret r) :
    ∃ c, bigEndianUint16 arch = .ret c ∧
      r = { Typ := MsgAdvertise, TransactionID := tid,
            Options := addressReplyOptions serverDuid clientId iaId c } := by
  rcases hb : bigEndianUint16 arch with c | f
  · rw [MakeMsgAdvertise_eq _ _ _ _ _ c hb] at h
    injection h with h
    exact ⟨c, rfl, h.symm⟩
  · simp [MakeMsgAdvertise, addBootOptions_panics _ _ _ hb, Run.panic_bind] at h

theorem MakeMsgReply_inv (tid : Nat × Nat × Nat) (serverDuid clientId iaId arch : List Nat)
    (r : Packet) (h : MakeMsgReply tid serverDuid clientId iaId arch = .ret r) :
    ∃ c, bigEndianUint16 arch = .ret c ∧
      r = { Typ := MsgReply, TransactionID := tid,
            Options := addressReplyOptions serverDuid clientId iaId c } := by
  rcases hb : bigEndianUint16 arch with c | f
  · rw [MakeMsgReply_eq _ _ _ _ _ c hb] at h
    injection h with h
    exact ⟨c, rfl, h.symm⟩
  · simp [MakeMsgReply, addBootOptions_panics _ _ _ hb, Run.panic_bind] at h

theorem MakeMsgInformationRequestReply_inv (tid : Nat × Nat × Nat)
    (serverDuid clientId arch : List Nat) (r : Packet)
    (h : MakeMsgInformationRequestReply tid serverDuid clientId arch = .ret r) :
    ∃ c, bigEndianUint16 arch = .ret c ∧
      r = { Typ := MsgReply, TransactionID := tid,
            Options := informationReplyOptions serverDuid clientId c } := by
  rcases hb : bigEndianUint16 arch with c | f
  · rw [MakeMsgInformationRequestReply_eq _ _ _ _ c hb] at h
    injection h with h
    exact ⟨c, rfl, h.symm⟩
  · simp [MakeMsgInformationRequestReply, addBootOptions_panics _ _ _ hb, Run.panic_bind] at h

/-- The Reply builder is the Advertise builder with the type changed. -/
theorem MakeMsgReply_eq_map (tid : Nat × Nat × Nat)
    (serverDuid clientId iaId arch : List Nat) :
    MakeMsgReply tid serverDuid clientId iaId arch =
      asReply <$> MakeMsgAdvertise tid serverDuid clientId iaId arch := by
  rcases hb : bigEndianUint16 arch with c | f
  · rw [MakeMsgReply_eq _ _ _ _ _ c hb, MakeMsgAdvertise_eq _ _ _ _ _ c hb]
    rfl
  · simp only [MakeMsgReply, MakeMsgAdvertise, addBootOptions_panics _ _ _ hb, Run.panic_bind]
    rfl

/-! ## Admission filter: claims C16, C17, C18 -/

/-- C16: every packet whose type is none of Solicit, Request,
Information-Request and Release is rejected by `ShouldDiscard`, whatever its
options and the server id are, with the error whose text is Unknown packet. -/
theorem ShouldDiscard_unknown_type (p : Packet) (serverDuid : List Nat)
    (h1 : p.Typ ≠ MsgSolicit) (h2 : p.Typ ≠ MsgRequest)
    (h3 : p.Typ ≠ MsgInformationRequest) (h4 : p.Typ ≠ MsgRelease) :
    p.ShouldDiscard serverDuid = .ret (some .unknownPacket) ∧
      DiscardError.unknownPacket.Error = "Unknown packet" := by
  refine ⟨?_, rfl⟩
  simp [Packet.ShouldDiscard, h1, h2, h3, h4, Run.pure_eq]

theorem ShouldDiscard_unknown_type_witness :
    outOfRangeExample.ShouldDiscard [5, 6] = .ret (some .unknownPacket) ∧
      DiscardError.unknownPacket.Error = "Unknown packet" :=
  ShouldDiscard_unknown_type outOfRangeExample [5, 6] (by decide) (by decide) (by decide)
    (by decide)

/-- C17: every Release is accepted by `ShouldDiscard`, whatever its options and
the server id are. -/
theorem ShouldDiscard_Release_accepts (p : Packet) (serverDuid : List Nat)
    (hp : p.Typ = MsgRelease) :
    p.ShouldDiscard serverDuid = .ret none := by
  simp [Packet.ShouldDiscard, hp, MsgRelease, MsgSolicit, MsgRequest, MsgInformationRequest,
    Run.pure_eq]

theorem ShouldDiscard_Release_accepts_witness :
    foreignReleaseExample.ShouldDiscard [5, 6] = .ret none :=
  ShouldDiscard_Release_accepts foreignReleaseExample [5, 6] (by decide)

/-- C18: the first failing admission rule gives the error. For a Solicit, a
Request and an Information-Request the rules are tried in the order: Boot File
URL requested; Client Identifier present (Solicit, Request) or no IA option
(Information-Request); no Server Identifier (Solicit) or Server Identifier
present (Request); Server Identifier equal to ours. A Request without a Server
Identifier gets the missing-server-id error and no value is compared. -/
theorem ShouldDiscard_first_failing_rule (p : Packet) (serverDuid : List Nat) :
    (p.Typ = MsgSolicit →
      (p.Options.RequestedBootFileUrlOption = false →
        p.ShouldDiscard serverDuid = .ret (some .solicitNoBootFileUrl)) ∧
      (p.Options.RequestedBootFileUrlOption = true → p.Options.HasClientId = false →
        p.ShouldDiscard serverDuid = .ret (some .solicitNoClientId)) ∧
      (p.Options.RequestedBootFileUrlOption = true → p.Options.HasClientId = true →
        p.Options.HasServerId = true →
        p.ShouldDiscard serverDuid = .ret (some .solicitHasServerId))) ∧
    (p.Typ = MsgRequest →
      (p.Options.RequestedBootFileUrlOption = false →
        p.ShouldDiscard serverDuid = .ret (some .requestNoBootFileUrl)) ∧
      (p.Options.RequestedBootFileUrlOption = true → p.Options.HasClientId = false →
        p.ShouldDiscard serverDuid = .ret (some .requestNoClientId)) ∧
      (p.Options.RequestedBootFileUrlOption = true → p.Options.HasClientId = true →
        p.Options.HasServerId = false →
        p.ShouldDiscard serverDuid = .ret (some .requestNoServerId)) ∧
      (p.Options.RequestedBootFileUrlOption = true → p.Options.HasClientId = true →
        ∀ sid, p.Options.find OptServerId = some sid → sid.Value ≠ serverDuid →
        p.ShouldDiscard serverDuid =
          .ret (some (.requestServerIdMismatch sid.Value serverDuid)))) ∧
    (p.Typ = MsgInformationRequest →
      (p.Options.RequestedBootFileUrlOption = false →
        p.ShouldDiscard serverDuid = .ret (some .informationRequestNoBootFileUrl)) ∧
      (p.Options.RequestedBootFileUrlOption = true →
        (p.Options.HasIaNa = true ∨ p.Options.HasIaTa = true) →
        p.ShouldDiscard serverDuid = .ret (some .informationRequestHasIa)) ∧
      (p.Options.RequestedBootFileUrlOption = true → p.Options.HasIaNa = false →
        p.Options.HasIaTa = false →
        ∀ sid, p.Options.find OptServerId = some sid → sid.Value ≠ serverDuid →
        p.ShouldDiscard serverDuid =
          .ret (some (.informationRequestServerIdMismatch sid.Value serverDuid)))) := by
  refine ⟨fun hp => ⟨?_, ?_, ?_⟩, fun hp => ⟨?_, ?_, ?_, ?_⟩, fun hp => ⟨?_, ?_, ?_⟩⟩
  · intro hurl
    simp [Packet.ShouldDiscard, hp, ShouldDiscardSolicit, hurl, Run.pure_eq]
  · intro hurl hcid
    simp [Packet.ShouldDiscard, hp, ShouldDiscardSolicit, hurl, hcid, Run.pure_eq]
  · intro hurl hcid hsid
    simp [Packet.ShouldDiscard, hp, ShouldDiscardSolicit, hurl, hcid, hsid, Run.pure_eq]
  · intro hurl
    simp [Packet.ShouldDiscard, hp, MsgRequest, MsgSolicit, ShouldDiscardRequest, hurl,
      Run.pure_eq]
  · intro hurl hcid
    simp [Packet.ShouldDiscard, hp, MsgRequest, MsgSolicit, ShouldDiscardRequest, hurl, hcid,
      Run.pure_eq]
  · intro hurl hcid hsid
    simp [Packet.ShouldDiscard, hp, MsgRequest, MsgSolicit, ShouldDiscardRequest, hurl, hcid,
      hsid, Run.pure_eq]
  · intro hurl hcid sid hfind hne
    have hhas : p.Options.HasServerId = true := by
      simp [Options.HasServerId, Options.Has, hfind]
    have h0 : bytesCompare sid.Value serverDuid ≠ 0 :=
      fun h => hne ((bytesCompare_eq_zero _ _).mp h)
    simp [Packet.ShouldDiscard, hp, MsgRequest, MsgSolicit, ShouldDiscardRequest, hurl, hcid,
      hhas, deref_of_find _ _ _ hfind, Run.ret_bind, Run.pure_eq, h0]
  · intro hurl
    simp [Packet.ShouldDiscard, hp, MsgInformationRequest, MsgRequest, MsgSolicit,
      ShouldDiscardInformationRequest, hurl, Run.pure_eq]
  · intro hurl hia
    rcases hia with hia | hia <;>
      simp [Packet.ShouldDiscard, hp, MsgInformationRequest, MsgRequest, MsgSolicit,
        ShouldDiscardInformationRequest, hurl, hia, Run.pure_eq]
  · intro hurl hna hta sid hfind hne
    have hhas : p.Options.HasServerId = true := by
      simp [Options.HasServerId, Options.Has, hfind]
    have h0 : bytesCompare sid.Value serverDuid ≠ 0 :=
      fun h => hne ((bytesCompare_eq_zero _ _).mp h)
    simp [Packet.ShouldDiscard, hp, MsgInformationRequest, MsgRequest, MsgSolicit,
      ShouldDiscardInformationRequest, hurl, hna, hta, hhas, deref_of_find _ _ _ hfind,
      Run.ret_bind, Run.pure_eq, h0]

theorem ShouldDiscard_first_failing_rule_witness :
    emptyRequestExample.Options.HasClientId = false ∧
      emptyRequestExample.Options.HasServerId = false ∧
      emptyRequestExample.ShouldDiscard [5, 6] = .ret (some .requestNoBootFileUrl) :=
  ⟨by decide, by decide,
    ((ShouldDiscard_first_failing_rule emptyRequestExample [5, 6]).2.1 (by decide)).1
      (by decide)⟩

/-! ## Response builder: claim C19 -/

/-- C19: for an architecture value of at least two bytes `MakeMsgAdvertise`
and `MakeMsgReply` both return, and their packets have the same transaction id
and the same options and differ in the type only, Advertise against Reply; the
two marshal to the same bytes under every option serializer; and the response
to a Request is the response to the same packet sent as a Solicit with the
type changed to Reply. -/
theorem MakeMsgReply_matches_MakeMsgAdvertise (tid : Nat × Nat × Nat)
    (serverDuid clientId iaId arch : List Nat) (h : 2 ≤ arch.length) :
    ∃ a r, MakeMsgAdvertise tid serverDuid clientId iaId arch = .ret a ∧
      MakeMsgReply tid serverDuid clientId iaId arch = .ret r ∧
      a.Typ = MsgAdvertise ∧ r.Typ = MsgReply ∧
      a.TransactionID = tid ∧ r.TransactionID = tid ∧ r.Options = a.Options ∧
      (∀ marshal : Options → Except String (List Nat), r.Marshal marshal = a.Marshal marshal) ∧
      (∀ (p : Packet) (s : List Nat),
        Packet.BuildResponse { p with Typ := MsgRequest } s =
          Option.map asReply <$> Packet.BuildResponse { p with Typ := MsgSolicit } s) := by
  obtain ⟨c, hc⟩ := bigEndianUint16_returns arch h
  refine ⟨_, _, MakeMsgAdvertise_eq tid serverDuid clientId iaId arch c hc,
    MakeMsgReply_eq tid serverDuid clientId iaId arch c hc, rfl, rfl, rfl, rfl, rfl,
    fun _ => rfl, ?_⟩
  intro p s
  unfold Packet.BuildResponse
  rcases hcid : p.Options.find OptClientId with _ | cid
  · simp [deref_of_find_none _ _ hcid, Run.panic_bind]
    rfl
  rcases hia : p.Options.find OptIaNa with _ | iaNa
  · simp [deref_of_find _ _ _ hcid, deref_of_find_none _ _ hia, Run.ret_bind, Run.panic_bind]
    rfl
  rcases hsl : slice iaNa.Value 0 4 with ia | f
  swap
  · simp [deref_of_find _ _ _ hcid, deref_of_find _ _ _ hia, hsl, Run.ret_bind, Run.panic_bind]
    rfl
  rcases har : p.Options.find OptClientArchType with _ | ar
  · simp [deref_of_find _ _ _ hcid, deref_of_find _ _ _ hia, hsl, deref_of_find_none _ _ har,
      Run.ret_bind, Run.panic_bind]
    rfl
  simp only [deref_of_find _ _ _ hcid, deref_of_find _ _ _ hia, hsl,
    deref_of_find _ _ _ har, Run.ret_bind, MakeMsgReply_eq_map]
  rcases MakeMsgAdvertise p.TransactionID s cid.Value ia ar.Value with a | f <;>
    simp [MsgRequest, MsgSolicit] <;> rfl

theorem MakeMsgReply_matches_MakeMsgAdvertise_witness :
    ∃ a r, MakeMsgAdvertise (1, 2, 3) [5, 6] [7, 8, 9] [1, 1, 1, 1] [0, 16] = .ret a ∧
      MakeMsgReply (1, 2, 3) [5, 6] [7, 8, 9] [1, 1, 1, 1] [0, 16] = .ret r ∧
      a.Typ = MsgAdvertise ∧ r.Typ = MsgReply ∧
      a.TransactionID = (1, 2, 3) ∧ r.TransactionID = (1, 2, 3) ∧ r.Options = a.Options ∧
      (∀ marshal : Options → Except String (List Nat), r.Marshal marshal = a.Marshal marshal) ∧
      (∀ (p : Packet) (s : List Nat),
        Packet.BuildResponse { p with Typ := MsgRequest } s =
          Option.map asReply <$> Packet.BuildResponse { p with Typ := MsgSolicit } s) :=
  MakeMsgReply_matches_MakeMsgAdvertise (1, 2, 3) [5, 6] [7, 8, 9] [1, 1, 1, 1] [0, 16]
    (by decide)

/-! ## Response builder: claims C11, C12, C13 -/

theorem find_informationReplyOptions_iaNa (serverDuid clientId : List Nat) (c : Nat) :
    Options.find (informationReplyOptions serverDuid clientId c) OptIaNa = none := by
  simp [informationReplyOptions, find_bootOptions, find_AddOption, find_nil, clientIdOption,
    serverIdOption, OptClientId, OptBootfileUrl, OptVendorClass, OptServerId, OptIaNa]

theorem find_releaseReplyOptions_status (serverDuid clientId : List Nat) :
    Options.find (releaseReplyOptions serverDuid clientId) OptStatusCode =
      some releaseStatusOption := by
  simp [releaseReplyOptions, find_AddOption, find_nil, releaseStatusOption]

/-- C11 (the code departs from the claim): for an Information-Request that
carries a Client Identifier and a Client Architecture Type of at least two
bytes, `BuildResponse` panics when the packet has no IA_NA option, on the IA_NA
read it makes before the dispatch on the type. Only when the packet does carry
an IA_NA of at least four bytes does it return the Reply of the claim: the
echoed Client Identifier, the Server Identifier, a Boot File URL and no
IA_NA. -/
theorem BuildResponse_InformationRequest (p : Packet) (serverDuid : List Nat)
    (cid arch : DhcpOption) (hp : p.Typ = MsgInformationRequest)
    (hcid : p.Options.find OptClientId = some cid)
    (harch : p.Options.find OptClientArchType = some arch)
    (harchLen : 2 ≤ arch.Value.length) :
    (p.Options.find OptIaNa = none → p.BuildResponse serverDuid = .panic .nilDeref) ∧
    (∀ iaNa, p.Options.find OptIaNa = some iaNa → 4 ≤ iaNa.Value.length →
      ∃ r, p.BuildResponse serverDuid = .ret (some r) ∧ r.Typ = MsgReply ∧
        r.Options.find OptClientId = some (clientIdOption cid.Value) ∧
        r.Options.find OptServerId = some (serverIdOption serverDuid) ∧
        (∃ b, r.Options.find OptBootfileUrl = some b) ∧
        r.Options.find OptIaNa = none) := by
  refine ⟨BuildResponse_panics_without_iaNa p serverDuid, ?_⟩
  intro iaNa hiaNa hiaLen
  obtain ⟨c, hc⟩ := bigEndianUint16_returns arch.Value harchLen
  have hbuild := BuildResponse_eq p serverDuid cid iaNa arch c hcid hiaNa hiaLen harch hc
  have hns : ¬ p.Typ = MsgSolicit := by simp [hp, MsgInformationRequest, MsgSolicit]
  have hnr : ¬ p.Typ = MsgRequest := by simp [hp, MsgInformationRequest, MsgRequest]
  rw [if_neg hns, if_neg hnr, if_pos hp] at hbuild
  exact ⟨_, hbuild, rfl, find_informationReplyOptions_clientId _ _ _,
    find_informationReplyOptions_serverId _ _ _,
    ⟨_, (find_informationReplyOptions_boot _ _ _).1⟩,
    find_informationReplyOptions_iaNa _ _ _⟩

theorem BuildResponse_InformationRequest_witness :
    informationRequestExample.ShouldDiscard [5, 6] = .ret none ∧
      informationRequestExample.BuildResponse [5, 6] = .panic .nilDeref :=
  ⟨by decide,
    (BuildResponse_InformationRequest informationRequestExample [5, 6]
      { Id := OptClientId, Length := 3, Value := [7, 8, 9] }
      { Id := OptClientArchType, Length := 2, Value := [0, 16] }
      (by decide) (by decide) (by decide) (by decide)).1 (by decide)⟩

/-- C12 (the code departs from the claim): a Release that carries a Client
Identifier is accepted by the admission filter, yet `BuildResponse` panics when
the packet has no IA_NA option, on the IA_NA read it makes before the dispatch
on the type. Only when the packet also carries an IA_NA of at least four bytes
and a Client Architecture Type does it return the Reply of the claim: a Status
Code of 19 bytes, two zero bytes and the text Release received., with the
echoed Client Identifier and the Server Identifier. -/
theorem BuildResponse_Release (p : Packet) (serverDuid : List Nat) (cid : DhcpOption)
    (hp : p.Typ = MsgRelease) (hcid : p.Options.find OptClientId = some cid) :
    p.ShouldDiscard serverDuid = .ret none ∧
    (p.Options.find OptIaNa = none → p.BuildResponse serverDuid = .panic .nilDeref) ∧
    (∀ iaNa arch, p.Options.find OptIaNa = some iaNa → 4 ≤ iaNa.Value.length →
      p.Options.find OptClientArchType = some arch →
      ∃ r st, p.BuildResponse serverDuid = .ret (some r) ∧ r.Typ = MsgReply ∧
        r.Options.find OptStatusCode = some st ∧ st.Value.length = 19 ∧
        st.Value = [0, 0] ++ bytesOfString "Release received." ∧
        r.Options.find OptClientId = some (clientIdOption cid.Value) ∧
        r.Options.find OptServerId = some (serverIdOption serverDuid)) := by
  refine ⟨?_, BuildResponse_panics_without_iaNa p serverDuid, ?_⟩
  · simp [Packet.ShouldDiscard, hp, MsgRelease, MsgSolicit, MsgRequest, MsgInformationRequest,
      Run.pure_eq]
  · intro iaNa arch hiaNa hiaLen harch
    refine ⟨{ Typ := MsgReply, TransactionID := p.TransactionID,
              Options := releaseReplyOptions serverDuid cid.Value }, releaseStatusOption,
      ?_, rfl, find_releaseReplyOptions_status _ _, by decide, rfl,
      find_releaseReplyOptions_clientId _ _, find_releaseReplyOptions_serverId _ _⟩
    unfold Packet.BuildResponse
    simp [deref_of_find _ _ _ hcid, deref_of_find _ _ _ hiaNa, deref_of_find _ _ _ harch,
      slice_prefix _ 4 hiaLen, Run.ret_bind, MakeMsgReleaseReply_eq, Run.map_ret, hp,
      MsgRelease, MsgSolicit, MsgRequest, MsgInformationRequest]

theorem BuildResponse_Release_witness :
    releaseExample.ShouldDiscard [5, 6] = .ret none ∧
      releaseExample.BuildResponse [5, 6] = .panic .nilDeref :=
  ⟨(BuildResponse_Release releaseExample [5, 6]
      { Id := OptClientId, Length := 3, Value := [7, 8, 9] } (by decide) (by decide)).1,
    (BuildResponse_Release releaseExample [5, 6]
      { Id := OptClientId, Length := 3, Value := [7, 8, 9] } (by decide) (by decide)).2.1
      (by decide)⟩

/-- C13 (the code departs from the claim): for a packet whose type is none of
Solicit, Request, Information-Request and Release, `BuildResponse` returns the
nil response only when the packet carries a Client Identifier, an IA_NA of at
least four bytes and a Client Architecture Type; when the Client Identifier or
the IA_NA is lacking it panics on the option reads it makes before the dispatch
on the type. -/
theorem BuildResponse_other_type (p : Packet) (serverDuid : List Nat)
    (h1 : p.Typ ≠ MsgSolicit) (h2 : p.Typ ≠ MsgRequest)
    (h3 : p.Typ ≠ MsgInformationRequest) (h4 : p.Typ ≠ MsgRelease) :
    (p.Options.find OptClientId = none → p.BuildResponse serverDuid = .panic .nilDeref) ∧
    (p.Options.find OptIaNa = none → p.BuildResponse serverDuid = .panic .nilDeref) ∧
    (∀ cid iaNa arch, p.Options.find OptClientId = some cid →
      p.Options.find OptIaNa = some iaNa → 4 ≤ iaNa.Value.length →
      p.Options.find OptClientArchType = some arch →
      p.BuildResponse serverDuid = .ret none) := by
  refine ⟨BuildResponse_panics_without_clientId p serverDuid,
    BuildResponse_panics_without_iaNa p serverDuid, ?_⟩
  intro cid iaNa arch hcid hiaNa hiaLen harch
  unfold Packet.BuildResponse
  simp [deref_of_find _ _ _ hcid, deref_of_find _ _ _ hiaNa, deref_of_find _ _ _ harch,
    slice_prefix _ 4 hiaLen, Run.ret_bind, h1, h2, h3, h4, Run.pure_eq]

theorem BuildResponse_other_type_witness :
    advertiseExample.BuildResponse [5, 6] = .panic .nilDeref :=
  (BuildResponse_other_type advertiseExample [5, 6]
    (by decide) (by decide) (by decide) (by decide)).1 (by decide)

/-! ## Response builder: claims C14, C15 -/

/-- C14: for a Solicit, a Request and an Information-Request that carry a
Client Identifier, an IA_NA of at least four bytes and a Client Architecture
Type whose value reads as the big-endian 16-bit number `c`, `BuildResponse`
returns a packet (an Advertise for the Solicit, a Reply otherwise). When `c` is
`0x0010` it holds a Vendor Class option with the value 00 00 00 00 00 0A
followed by HTTPClient and a Boot File URL option whose value is the bootx64.efi
address; for every other `c` it holds no Vendor Class option and a Boot File
URL option whose value is the script.ipxe address. -/
theorem BuildResponse_boot_branch (p : Packet) (serverDuid : List Nat)
    (cid iaNa arch : DhcpOption) (c : Nat)
    (hcid : p.Options.find OptClientId = some cid)
    (hiaNa : p.Options.find OptIaNa = some iaNa) (hiaLen : 4 ≤ iaNa.Value.length)
    (harch : p.Options.find OptClientArchType = some arch)
    (hc : bigEndianUint16 arch.Value = .ret c)
    (hp : p.Typ = MsgSolicit ∨ p.Typ = MsgRequest ∨ p.Typ = MsgInformationRequest) :
    ∃ r, p.BuildResponse serverDuid = .ret (some r) ∧
      r.Typ = (if p.Typ = MsgSolicit then MsgAdvertise else MsgReply) ∧
      (c = 0x0010 →
        (∃ v, r.Options.find OptVendorClass = some v ∧
          v.Value = [0, 0, 0, 0, 0, 0x0A] ++ bytesOfString "HTTPClient") ∧
        (∃ b, r.Options.find OptBootfileUrl = some b ∧
          b.Value = bytesOfString "http://[2001:db8:f00f:cafe::4]/bootx64.efi" ∧
          List.IsSuffix (bytesOfString "bootx64.efi") b.Value)) ∧
      (c ≠ 0x0010 →
        r.Options.find OptVendorClass = none ∧
        (∃ b, r.Options.find OptBootfileUrl = some b ∧
          b.Value = bytesOfString "http://[2001:db8:f00f:cafe::4]/script.ipxe" ∧
          List.IsSuffix (bytesOfString "script.ipxe") b.Value)) := by
  have hefi : List.IsSuffix (bytesOfString "bootx64.efi") efiBootfileOption.Value :=
    ⟨bytesOfString "http://[2001:db8:f00f:cafe::4]/", by decide⟩
  have hscript : List.IsSuffix (bytesOfString "script.ipxe") scriptBootfileOption.Value :=
    ⟨bytesOfString "http://[2001:db8:f00f:cafe::4]/", by decide⟩
  have hvendor : vendorClassOption.Value = [0, 0, 0, 0, 0, 0x0A] ++ bytesOfString "HTTPClient" := by
    decide
  have hbuild := BuildResponse_eq p serverDuid cid iaNa arch c hcid hiaNa hiaLen harch hc
  have haddr := find_addressReplyOptions_boot serverDuid cid.Value (iaNa.Value.take 4) c
  have hinfo := find_informationReplyOptions_boot serverDuid cid.Value c
  rcases hp with hp | hp | hp
  · rw [if_pos hp] at hbuild
    refine ⟨_, hbuild, by simp [hp], ?_, ?_⟩
    · intro h16
      simp only [h16.symm, if_true] at haddr
      exact ⟨⟨_, haddr.2, hvendor⟩, ⟨_, haddr.1, rfl, hefi⟩⟩
    · intro h16
      have h16b : ¬ (0x10 = c) := fun h => h16 h.symm
      simp only [h16b, if_false] at haddr
      exact ⟨haddr.2, ⟨_, haddr.1, rfl, hscript⟩⟩
  · have hns : ¬ p.Typ = MsgSolicit := by simp [hp, MsgRequest, MsgSolicit]
    rw [if_neg hns, if_pos hp] at hbuild
    refine ⟨_, hbuild, by simp [hns], ?_, ?_⟩
    · intro h16
      simp only [h16.symm, if_true] at haddr
      exact ⟨⟨_, haddr.2, hvendor⟩, ⟨_, haddr.1, rfl, hefi⟩⟩
    · intro h16
      have h16b : ¬ (0x10 = c) := fun h => h16 h.symm
      simp only [h16b, if_false] at haddr
      exact ⟨haddr.2, ⟨_, haddr.1, rfl, hscript⟩⟩
  · have hns : ¬ p.Typ = MsgSolicit := by simp [hp, MsgInformationRequest, MsgSolicit]
    have hnr : ¬ p.Typ = MsgRequest := by simp [hp, MsgInformationRequest, MsgRequest]
    rw [if_neg hns, if_neg hnr, if_pos hp] at hbuild
    refine ⟨_, hbuild, by simp [hns], ?_, ?_⟩
    · intro h16
      simp only [h16.symm, if_true] at hinfo
      exact ⟨⟨_, hinfo.2, hvendor⟩, ⟨_, hinfo.1, rfl, hefi⟩⟩
    · intro h16
      have h16b : ¬ (0x10 = c) := fun h => h16 h.symm
      simp only [h16b, if_false] at hinfo
      exact ⟨hinfo.2, ⟨_, hinfo.1, rfl, hscript⟩⟩

theorem Run.map_panic {α β : Type} (g : α → β) (f : Fault) :
    (g <$> (Run.panic f : Run α)) = Run.panic f := rfl

theorem slice_short_panics (v : List Nat) (n : Nat) (h : v.length < n) :
    slice v 0 n = .panic (.sliceBounds n v.length) := by
  simp [slice, Nat.not_le.mpr h]

/-- What a returned response tells about the request: the three options were
read, and the packet is the one the builder of the request's type makes. -/
theorem BuildResponse_inv (p : Packet) (serverDuid : List Nat) (r : Packet)
    (h : p.BuildResponse serverDuid = .ret (some r)) :
    ∃ cid iaNa arch, p.Options.find OptClientId = some cid ∧
      p.Options.find OptIaNa = some iaNa ∧ 4 ≤ iaNa.Value.length ∧
      p.Options.find OptClientArchType = some arch ∧
      ((p.Typ = MsgSolicit ∧ ∃ c, bigEndianUint16 arch.Value = .ret c ∧
          r = { Typ := MsgAdvertise, TransactionID := p.TransactionID,
                Options := addressReplyOptions serverDuid cid.Value (iaNa.Value.take 4) c }) ∨
       (p.Typ = MsgRequest ∧ ∃ c, bigEndianUint16 arch.Value = .ret c ∧
          r = { Typ := MsgReply, TransactionID := p.TransactionID,
                Options := addressReplyOptions serverDuid cid.Value (iaNa.Value.take 4) c }) ∨
       (p.Typ = MsgInformationRequest ∧ ∃ c, bigEndianUint16 arch.Value = .ret c ∧
          r = { Typ := MsgReply, TransactionID := p.TransactionID,
                Options := informationReplyOptions serverDuid cid.Value c }) ∨
       (p.Typ = MsgRelease ∧
          r = { Typ := MsgReply, TransactionID := p.TransactionID,
                Options := releaseReplyOptions serverDuid cid.Value })) := by
  unfold Packet.BuildResponse at h
  rcases hcid : p.Options.find OptClientId with _ | cid
  · simp [deref_of_find_none _ _ hcid, Run.panic_bind] at h
  rcases hia : p.Options.find OptIaNa with _ | iaNa
  · simp [deref_of_find _ _ _ hcid, deref_of_find_none _ _ hia, Run.ret_bind,
      Run.panic_bind] at h
  by_cases hlen : 4 ≤ iaNa.Value.length
  swap
  · simp [deref_of_find _ _ _ hcid, deref_of_find _ _ _ hia,
      slice_short_panics _ 4 (Nat.not_le.mp hlen), Run.ret_bind, Run.panic_bind] at h
  rcases har : p.Options.find OptClientArchType with _ | arch
  · simp [deref_of_find _ _ _ hcid, deref_of_find _ _ _ hia, slice_prefix _ 4 hlen,
      deref_of_find_none _ _ har, Run.ret_bind, Run.panic_bind] at h
  simp only [deref_of_find _ _ _ hcid, deref_of_find _ _ _ hia, slice_prefix _ 4 hlen,
    deref_of_find _ _ _ har, Run.ret_bind] at h
  refine ⟨cid, iaNa, arch, rfl, rfl, hlen, rfl, ?_⟩
  by_cases h1 : p.Typ = MsgSolicit
  · left
    rw [if_pos h1] at h
    rcases hm : MakeMsgAdvertise p.TransactionID serverDuid cid.Value (iaNa.Value.take 4)
      arch.Value with a | f
    · rw [hm, Run.map_ret] at h
      injection h with h
      injection h with h
      subst h
      exact ⟨h1, MakeMsgAdvertise_inv _ _ _ _ _ _ hm⟩
    · rw [hm, Run.map_panic] at h
      exact absurd h (by simp)
  rw [if_neg h1] at h
  by_cases h2 : p.Typ = MsgRequest
  · right; left
    rw [if_pos h2] at h
    rcases hm : MakeMsgReply p.TransactionID serverDuid cid.Value (iaNa.Value.take 4)
      arch.Value with a | f
    · rw [hm, Run.map_ret] at h
      injection h with h
      injection h with h
      subst h
      exact ⟨h2, MakeMsgReply_inv _ _ _ _ _ _ hm⟩
    · rw [hm, Run.map_panic] at h
      exact absurd h (by simp)
  rw [if_neg h2] at h
  by_cases h3 : p.Typ = MsgInformationRequest
  · right; right; left
    rw [if_pos h3] at h
    rcases hm : MakeMsgInformationRequestReply p.TransactionID serverDuid cid.Value
      arch.Value with a | f
    · rw [hm, Run.map_ret] at h
      injection h with h
      injection h with h
      subst h
      exact ⟨h3, MakeMsgInformationRequestReply_inv _ _ _ _ _ hm⟩
    · rw [hm, Run.map_panic] at h
      exact absurd h (by simp)
  rw [if_neg h3] at h
  by_cases h4 : p.Typ = MsgRelease
  · right; right; right
    rw [if_pos h4, MakeMsgReleaseReply_eq, Run.map_ret] at h
    injection h with h
    injection h with h
    exact ⟨h4, h.symm⟩
  · rw [if_neg h4] at h
    injection h with h
    exact absurd h (by simp)

/-- C15: whenever `BuildResponse` returns a packet, the request carries a
Client Identifier, the Client Identifier option of the response has the
request's Client Identifier value, and the Server Identifier option of the
response has the server id that was passed in; no later insertion replaces
either. -/
theorem BuildResponse_echoes_identifiers (p : Packet) (serverDuid : List Nat) (r : Packet)
    (h : p.BuildResponse serverDuid = .ret (some r)) :
    ∃ cid, p.Options.find OptClientId = some cid ∧
      (∃ c, r.Options.find OptClientId = some c ∧ c.Value = cid.Value) ∧
      (∃ sv, r.Options.find OptServerId = some sv ∧ sv.Value = serverDuid) := by
  obtain ⟨cid, iaNa, arch, hcid, _, _, _, hcases⟩ := BuildResponse_inv p serverDuid r h
  refine ⟨cid, hcid, ?_⟩
  rcases hcases with ⟨_, c, _, hr⟩ | ⟨_, c, _, hr⟩ | ⟨_, c, _, hr⟩ | ⟨_, hr⟩
  · subst hr
    exact ⟨⟨_, find_addressReplyOptions_clientId _ _ _ _, rfl⟩,
      ⟨_, find_addressReplyOptions_serverId _ _ _ _, rfl⟩⟩
  · subst hr
    exact ⟨⟨_, find_addressReplyOptions_clientId _ _ _ _, rfl⟩,
      ⟨_, find_addressReplyOptions_serverId _ _ _ _, rfl⟩⟩
  · subst hr
    exact ⟨⟨_, find_informationReplyOptions_clientId _ _ _, rfl⟩,
      ⟨_, find_informationReplyOptions_serverId _ _ _, rfl⟩⟩
  · subst hr
    exact ⟨⟨_, find_releaseReplyOptions_clientId _ _, rfl⟩,
      ⟨_, find_releaseReplyOptions_serverId _ _, rfl⟩⟩

theorem BuildResponse_echoes_identifiers_witness :
    ∃ cid, solicitExample.Options.find OptClientId = some cid ∧
      (∃ c, Options.find (addressReplyOptions [5, 6] [7, 8, 9] [1, 1, 1, 1] 16) OptClientId
          = some c ∧ c.Value = cid.Value) ∧
      (∃ sv, Options.find (addressReplyOptions [5, 6] [7, 8, 9] [1, 1, 1, 1] 16) OptServerId
          = some sv ∧ sv.Value = [5, 6]) :=
  BuildResponse_echoes_identifiers solicitExample [5, 6]
    { Typ := MsgAdvertise, TransactionID := (1, 2, 3),
      Options := addressReplyOptions [5, 6] [7, 8, 9] [1, 1, 1, 1] 16 } (by decide)

theorem BuildResponse_boot_branch_witness :
    ∃ r, solicitExample.BuildResponse [5, 6] = .ret (some r) ∧
      r.Typ = (if solicitExample.Typ = MsgSolicit then MsgAdvertise else MsgReply) ∧
      ((16 : Nat) = 0x0010 →
        (∃ v, r.Options.find OptVendorClass = some v ∧
          v.Value = [0, 0, 0, 0, 0, 0x0A] ++ bytesOfString "HTTPClient") ∧
        (∃ b, r.Options.find OptBootfileUrl = some b ∧
          b.Value = bytesOfString "http://[2001:db8:f00f:cafe::4]/bootx64.efi" ∧
          List.IsSuffix (bytesOfString "bootx64.efi") b.Value)) ∧
      ((16 : Nat) ≠ 0x0010 →
        r.Options.find OptVendorClass = none ∧
        (∃ b, r.Options.find OptBootfileUrl = some b ∧
          b.Value = bytesOfString "http://[2001:db8:f00f:cafe::4]/script.ipxe" ∧
          List.IsSuffix (bytesOfString "script.ipxe") b.Value)) :=
  BuildResponse_boot_branch solicitExample [5, 6]
    { Id := OptClientId, Length := 3, Value := [7, 8, 9] }
    { Id := OptIaNa, Length := 12, Value := [1, 1, 1, 1, 0, 0, 0, 0, 0, 0, 0, 0] }
    { Id := OptClientArchType, Length := 2, Value := [0, 16] } 16
    (by decide) (by decide) (by decide) (by decide) (by decide) (Or.inl (by decide))

/-! ## Response builder: claim C20 -/

theorem wellFormed_AddOption (o : Options) (new : DhcpOption) (k : Nat) (opt : DhcpOption)
    (ho : ∀ x, Options.find o k = some x → x.Length = x.Value.length ∧ x.Id = k)
    (hn : k = new.Id → new.Length = new.Value.length)
    (h : Options.find (o.AddOption new) k = some opt) :
    opt.Length = opt.Value.length ∧ opt.Id = k := by
  rw [find_AddOption] at h
  by_cases hk : k = new.Id
  · rw [if_pos hk] at h
    injection h with h
    subst h
    exact ⟨hn hk, hk.symm⟩
  · rw [if_neg hk] at h
    exact ho opt h

theorem wellFormed_bootOptions (o : Options) (c k : Nat) (opt : DhcpOption)
    (ho : ∀ x, Options.find o k = some x → x.Length = x.Value.length ∧ x.Id = k)
    (h : Options.find (bootOptions o c) k = some opt) :
    opt.Length = opt.Value.length ∧ opt.Id = k := by
  unfold bootOptions at h
  by_cases hc : 0x10 = c
  · rw [if_pos hc] at h
    exact wellFormed_AddOption _ efiBootfileOption k opt
      (fun x hx => wellFormed_AddOption o vendorClassOption k x ho (fun _ => by decide) hx)
      (fun _ => by decide) h
  · rw [if_neg hc] at h
    exact wellFormed_AddOption o scriptBootfileOption k opt ho (fun _ => by decide) h

theorem wellFormed_identifiers (serverDuid clientId : List Nat) (k : Nat)
    (hcl : clientId.length < 65536) (hsl : serverDuid.length < 65536) :
    ∀ x, Options.find
        (Options.AddOption (Options.AddOption [] (clientIdOption clientId))
          (serverIdOption serverDuid)) k = some x →
      x.Length = x.Value.length ∧ x.Id = k := by
  intro x hx
  refine wellFormed_AddOption _ (serverIdOption serverDuid) k x ?_
    (fun _ => Nat.mod_eq_of_lt hsl) hx
  intro y hy
  refine wellFormed_AddOption [] (clientIdOption clientId) k y ?_
    (fun _ => Nat.mod_eq_of_lt hcl) hy
  intro z hz
  rw [find_nil] at hz
  exact absurd hz (by simp)

theorem wellFormed_addressReplyOptions (serverDuid clientId iaId : List Nat) (c k : Nat)
    (hcl : clientId.length < 65536) (hsl : serverDuid.length < 65536) (hk : k ≠ OptIaNa) :
    ∀ x, Options.find (addressReplyOptions serverDuid clientId iaId c) k = some x →
      x.Length = x.Value.length ∧ x.Id = k := by
  intro x hx
  refine wellFormed_bootOptions _ c k x ?_ hx
  intro y hy
  refine wellFormed_AddOption _ (serverIdOption serverDuid) k y ?_
    (fun _ => Nat.mod_eq_of_lt hsl) hy
  intro z hz
  refine wellFormed_AddOption _ _ k z ?_ (fun h => absurd h hk) hz
  intro w hw
  refine wellFormed_AddOption [] (clientIdOption clientId) k w ?_
    (fun _ => Nat.mod_eq_of_lt hcl) hw
  intro v hv
  rw [find_nil] at hv
  exact absurd hv (by simp)

/-- C20: in every packet that `MakeMsgAdvertise`, `MakeMsgReply`,
`MakeMsgInformationRequestReply` or `MakeMsgReleaseReply` returns, for a client
id and a server id shorter than 65536 bytes, the option stored under each of
the keys Client Identifier, Server Identifier, Vendor Class, Boot File URL and
Status Code has a declared length equal to the length of its value and an
identifier equal to that key. -/
theorem builders_options_well_formed (tid : Nat × Nat × Nat)
    (serverDuid clientId iaId arch : List Nat) (r : Packet)
    (hcl : clientId.length < 65536) (hsl : serverDuid.length < 65536)
    (hr : MakeMsgAdvertise tid serverDuid clientId iaId arch = .ret r ∨
      MakeMsgReply tid serverDuid clientId iaId arch = .ret r ∨
      MakeMsgInformationRequestReply tid serverDuid clientId arch = .ret r ∨
      MakeMsgReleaseReply tid serverDuid clientId = .ret r)
    (k : Nat)
    (hk : k ∈ [OptClientId, OptServerId, OptVendorClass, OptBootfileUrl, OptStatusCode])
    (opt : DhcpOption) (hfind : r.Options.find k = some opt) :
    opt.Length = opt.Value.length ∧ opt.Id = k := by
  have hk3 : k ≠ OptIaNa := by
    intro h
    subst h
    revert hk
    decide
  rcases hr with hr | hr | hr | hr
  · obtain ⟨c, _, hr⟩ := MakeMsgAdvertise_inv _ _ _ _ _ _ hr
    subst hr
    exact wellFormed_addressReplyOptions serverDuid clientId iaId c k hcl hsl hk3 opt hfind
  · obtain ⟨c, _, hr⟩ := MakeMsgReply_inv _ _ _ _ _ _ hr
    subst hr
    exact wellFormed_addressReplyOptions serverDuid clientId iaId c k hcl hsl hk3 opt hfind
  · obtain ⟨c, _, hr⟩ := MakeMsgInformationRequestReply_inv _ _ _ _ _ hr
    subst hr
    exact wellFormed_bootOptions _ c k opt
      (wellFormed_identifiers serverDuid clientId k hcl hsl) hfind
  · rw [MakeMsgReleaseReply_eq] at hr
    injection hr with hr
    subst hr
    exact wellFormed_AddOption _ releaseStatusOption k opt
      (wellFormed_identifiers serverDuid clientId k hcl hsl) (fun _ => by decide) hfind

theorem builders_options_well_formed_witness :
    vendorClassOption.Length = vendorClassOption.Value.length ∧
      vendorClassOption.Id = OptVendorClass :=
  builders_options_well_formed (1, 2, 3) [5, 6] [7, 8, 9] [1, 1, 1, 1] [0, 16]
    { Typ := MsgAdvertise, TransactionID := (1, 2, 3),
      Options := addressReplyOptions [5, 6] [7, 8, 9] [1, 1, 1, 1] 16 }
    (by decide) (by decide) (Or.inl (by decide)) OptVendorClass (by decide)
    vendorClassOption (by decide)

end Dhcp6
